import Mathlib

/-!
Verification of the DFF model loader (`LoaderDFF`) and the `GameObject`
model accessors of this repository.

The repository's files contain `LoaderDFF.hpp` (the loader's declarations:
`loadFromMemory`, `readFrameList`, `readGeometryList`, `readGeometry`,
`readMaterialList`, `readMaterial`, `readTexture`, `readGeometryExtension`,
`readBinMeshPLG`, `readAtomic`, and the texture-lookup callback) but not the
loader's implementation file, so the parsing behaviour below is modelled
from the specification's description of the chunk stream cursor, the
builders and the loader driver.  `GameObject.hpp` is present in full and the
`GameObject` definitions below are translated directly from it.

Machine integers are modelled as `Nat` (bytes are values below 256, 32-bit
words are read little-endian); 32-bit floats are kept as their raw 32-bit
word patterns, since the loader only moves them and never computes with
them.  Fallible parsing returns `Except DFFError`.
-/

/-- Modelled from the spec: the chunk type tags the format uses (the spec
lists the kinds: struct, string, extension, texture, material, material
list, frame list, geometry, clump, atomic, geometry list, alternate-mesh).
The numeric values are the RenderWare section identifiers. -/
def CHUNK_STRUCT : Nat := 1

def CHUNK_STRING : Nat := 2

def CHUNK_EXTENSION : Nat := 3

def CHUNK_TEXTURE : Nat := 6

def CHUNK_MATERIAL : Nat := 7

def CHUNK_MATERIALLIST : Nat := 8

def CHUNK_FRAMELIST : Nat := 14

def CHUNK_GEOMETRY : Nat := 15

def CHUNK_CLUMP : Nat := 16

def CHUNK_ATOMIC : Nat := 20

def CHUNK_GEOMETRYLIST : Nat := 26

def CHUNK_BINMESHPLG : Nat := 1294

def CHUNK_NODENAME : Nat := 39056126

/-- Modelled from the spec: the loader's error kinds (spec section 7). -/
inductive DFFError where
  | Truncated
  | UnexpectedChunk (tag : Nat)
  | ReferenceOutOfRange
  | UnsupportedVersion
deriving Repr, DecidableEq

/-- Modelled from the spec: the chunk stream cursor — a read-only cursor
over a byte buffer.  `bytes` is the byte sequence this cursor is scoped to
and `pos` the current read position inside it. -/
structure Cursor where
  bytes : List Nat
  pos : Nat
deriving Repr, DecidableEq

def Cursor.remaining (c : Cursor) : Nat := c.bytes.length - c.pos

/-- Modelled from the spec: a chunk header — type tag, declared payload
length in bytes, format version (each a 32-bit little-endian word). -/
structure ChunkHeader where
  tag : Nat
  length : Nat
  version : Nat
deriving Repr, DecidableEq

/-- Modelled from the spec: primitive reader for one byte; fails with
`Truncated` if no byte remains. -/
def readU8 (c : Cursor) : Except DFFError (Nat × Cursor) :=
  if c.pos + 1 ≤ c.bytes.length then
    .ok (c.bytes.getD c.pos 0, ⟨c.bytes, c.pos + 1⟩)
  else .error .Truncated

/-- Modelled from the spec: primitive reader for a 16-bit little-endian
word; fails with `Truncated` if fewer than 2 bytes remain. -/
def readU16 (c : Cursor) : Except DFFError (Nat × Cursor) :=
  if c.pos + 2 ≤ c.bytes.length then
    .ok (c.bytes.getD c.pos 0 + 256 * c.bytes.getD (c.pos + 1) 0,
         ⟨c.bytes, c.pos + 2⟩)
  else .error .Truncated

/-- Modelled from the spec: primitive reader for a 32-bit little-endian
word (`u32`, and the raw bit pattern of an `f32`); fails with `Truncated`
if fewer than 4 bytes remain. -/
def readU32 (c : Cursor) : Except DFFError (Nat × Cursor) :=
  if c.pos + 4 ≤ c.bytes.length then
    .ok (c.bytes.getD c.pos 0 + 256 * c.bytes.getD (c.pos + 1) 0 +
           65536 * c.bytes.getD (c.pos + 2) 0 +
           16777216 * c.bytes.getD (c.pos + 3) 0,
         ⟨c.bytes, c.pos + 4⟩)
  else .error .Truncated

/-- Modelled from the spec: a signed 32-bit read (two's complement view of
the 32-bit word), used for parent indices and duplicate-material
back-references. -/
def readI32 (c : Cursor) : Except DFFError (Int × Cursor) :=
  match readU32 c with
  | .error e => .error e
  | .ok (n, c) =>
    .ok (if n < 2147483648 then (n : Int) else (n : Int) - 4294967296, c)

/-- Modelled from the spec: `skip(n)` — advance `n` bytes, failing with
`Truncated` if fewer remain. -/
def skipBytes (n : Nat) (c : Cursor) : Except DFFError Cursor :=
  if c.pos + n ≤ c.bytes.length then .ok ⟨c.bytes, c.pos + n⟩
  else .error .Truncated

/-- Modelled from the spec: `readHeader()` consumes the next chunk header
(type tag, declared length, version, 4 bytes each); fails with `Truncated`
if fewer bytes remain than a header requires. -/
def readHeader (c : Cursor) : Except DFFError (ChunkHeader × Cursor) :=
  match readU32 c with
  | .error e => .error e
  | .ok (tag, c) =>
    match readU32 c with
    | .error e => .error e
    | .ok (len, c) =>
      match readU32 c with
      | .error e => .error e
      | .ok (ver, c) => .ok (⟨tag, len, ver⟩, c)

/-- Modelled from the spec: `childCursor()` returns a new cursor scoped to
exactly the declared payload length of the chunk just read (fails with
`Truncated` if the declared length exceeds the bytes remaining in the
parent), and the parent cursor resumed immediately after the full declared
length of the child, regardless of how much the child later consumes. -/
def childCursor (h : ChunkHeader) (c : Cursor) :
    Except DFFError (Cursor × Cursor) :=
  if c.pos + h.length ≤ c.bytes.length then
    .ok (⟨(c.bytes.drop c.pos).take h.length, 0⟩, ⟨c.bytes, c.pos + h.length⟩)
  else .error .Truncated

/-- Modelled from the spec: read `n` consecutive 32-bit words (used for the
fixed-size float vectors: matrices, translations, bounding spheres, vertex
attributes — kept as raw bit patterns). -/
def readWords : Nat → Cursor → Except DFFError (List Nat × Cursor)
  | 0, c => .ok ([], c)
  | n + 1, c =>
    match readU32 c with
    | .error e => .error e
    | .ok (w, c) =>
      match readWords n c with
      | .error e => .error e
      | .ok (ws, c) => .ok (w :: ws, c)

/-- Decode a NUL-terminated byte payload as a string (the format's
fixed-size strings are padded with NUL bytes). -/
def decodeString (bs : List Nat) : String :=
  String.mk ((bs.takeWhile (fun b => b ≠ 0)).map Char.ofNat)

/-- Modelled from the spec: the texture-lookup callback — given a diffuse
name and a mask name, produce an opaque texture handle or "not found". -/
def TextureLookup : Type := String → String → Option Nat

/-- The callback that always answers "texture not found". -/
def noneLookup : TextureLookup := fun _ _ => none

/-- Modelled from the spec: a texture reference — diffuse name, mask name,
the filtering/wrap flags word, and the resolution result (an opaque handle,
or `none` for the unresolved texture marker). -/
structure TextureRef where
  name : String
  mask : String
  filterFlags : Nat
  handle : Option Nat
deriving Repr, DecidableEq

/-- Modelled from the spec: a material — flags, base RGBA color, an unused
word, the declared texture count, the scalar coefficients (raw f32 words),
and the textures read from its texture sub-chunks. -/
structure Material where
  matFlags : Nat
  color : Nat
  unusedWord : Nat
  declaredTextureCount : Nat
  coeffs : List Nat
  textures : List TextureRef
deriving Repr, DecidableEq

/-- Modelled from the spec: a triangle — three vertex indices and a
material index. -/
structure Triangle where
  v0 : Nat
  v1 : Nat
  v2 : Nat
  materialIndex : Nat
deriving Repr, DecidableEq

/-- Modelled from the spec: one per-material bin of the alternate-mesh
representation — a material index and an index sequence. -/
structure BinMeshBin where
  materialIndex : Nat
  indices : List Nat
deriving Repr, DecidableEq

/-- Modelled from the spec: the alternate-mesh representation — a
strip-vs-list flag, a total index count, and the per-material bins. -/
structure BinMesh where
  stripFlag : Nat
  totalIndexCount : Nat
  bins : List BinMeshBin
deriving Repr, DecidableEq

/-- Modelled from the spec: a geometry — flags, texture-coordinate set
count, vertex count, morph target count, bounding sphere (4 raw f32
words), the vertex attribute sequences (raw f32 / RGBA words), the
triangle list, the material list and the optional alternate mesh. -/
structure Geometry where
  geomFlags : Nat
  uvSetCount : Nat
  vertexCount : Nat
  morphCount : Nat
  boundingSphere : List Nat
  positions : List Nat
  normals : List Nat
  colors : List Nat
  texcoords : List (List Nat)
  triangles : List Triangle
  materials : List Material
  binMesh : Option BinMesh
deriving Repr, DecidableEq

/-- Modelled from the spec: a frame — orientation matrix (9 raw f32 words),
translation (3 raw f32 words), signed parent index (negative meaning "no
parent"), flags, optional name. -/
structure Frame where
  matrix : List Nat
  translation : List Nat
  parent : Int
  frameFlags : Nat
  name : String
deriving Repr, DecidableEq

instance : Inhabited Frame := ⟨⟨[], [], 0, 0, ""⟩⟩

/-- Modelled from the spec: an atomic — the binding of one frame to one
geometry, by index into the clump's frame and geometry sequences, plus
flags. -/
structure Atomic where
  frameIndex : Nat
  geometryIndex : Nat
  atomicFlags : Nat
deriving Repr, DecidableEq

/-- Modelled from the spec: the clump — the frame sequence, the geometry
sequence and the atomic sequence, the single unit returned to the caller. -/
structure Clump where
  frames : List Frame
  geometries : List Geometry
  atomics : List Atomic
deriving Repr, DecidableEq

/-- Modelled from the spec: the parsing part of `readTexture` — reads a
struct sub-chunk (filtering/wrap flags) then two string chunks (diffuse
name, mask name — the mask may be empty). -/
def readTextureRaw (c : Cursor) :
    Except DFFError (Nat × String × String) :=
  match readHeader c with
  | .error e => .error e
  | .ok (h, c) =>
    if h.tag = CHUNK_STRUCT then
      match childCursor h c with
      | .error e => .error e
      | .ok (sc, c) =>
        match readU32 sc with
        | .error e => .error e
        | .ok (ff, _) =>
          match readHeader c with
          | .error e => .error e
          | .ok (h1, c) =>
            if h1.tag = CHUNK_STRING then
              match childCursor h1 c with
              | .error e => .error e
              | .ok (nc, c) =>
                match readHeader c with
                | .error e => .error e
                | .ok (h2, c) =>
                  if h2.tag = CHUNK_STRING then
                    match childCursor h2 c with
                    | .error e => .error e
                    | .ok (mc, _) =>
                      .ok (ff, decodeString nc.bytes, decodeString mc.bytes)
                  else .error (.UnexpectedChunk h2.tag)
            else .error (.UnexpectedChunk h1.tag)
    else .error (.UnexpectedChunk h.tag)

/-- Modelled from the spec: `readTexture` — parses the texture chunk and
resolves the names through the injected lookup; a `none` lookup result is
not a parse failure, the material keeps an unresolved texture marker. -/
def readTexture (lookup : TextureLookup) (c : Cursor) :
    Except DFFError TextureRef :=
  match readTextureRaw c with
  | .error e => .error e
  | .ok (ff, nm, mk) => .ok ⟨nm, mk, ff, lookup nm mk⟩

/-- Modelled from the spec: the loop over a material chunk's remaining
sub-chunks — a texture chunk triggers `readTexture`, any other sub-chunk
kind is skipped wholesale using its declared length.  `fuel` bounds the
iteration count (each iteration consumes at least the 12 header bytes, so
the initial `Cursor.remaining` always suffices). -/
def materialSubChunks (lookup : TextureLookup) :
    Nat → Cursor → List TextureRef → Except DFFError (List TextureRef)
  | 0, _, texs => .ok texs
  | fuel + 1, c, texs =>
    if c.remaining = 0 then .ok texs
    else
      match readHeader c with
      | .error e => .error e
      | .ok (h, c) =>
        match childCursor h c with
        | .error e => .error e
        | .ok (child, c) =>
          if h.tag = CHUNK_TEXTURE then
            match readTexture lookup child with
            | .error e => .error e
            | .ok t => materialSubChunks lookup fuel c (texs ++ [t])
          else materialSubChunks lookup fuel c texs

/-- Modelled from the spec: `readMaterial` — reads the material's struct
(flags, color, an unused word, the declared texture count, three raw f32
coefficients) then zero or more sub-chunks, of which a texture chunk
triggers `readTexture`. -/
def readMaterial (lookup : TextureLookup) (c : Cursor) :
    Except DFFError Material :=
  match readHeader c with
  | .error e => .error e
  | .ok (h, c) =>
    if h.tag = CHUNK_STRUCT then
      match childCursor h c with
      | .error e => .error e
      | .ok (sc, c) =>
        match readU32 sc with
        | .error e => .error e
        | .ok (fl, sc) =>
          match readU32 sc with
          | .error e => .error e
          | .ok (col, sc) =>
            match readU32 sc with
            | .error e => .error e
            | .ok (unk, sc) =>
              match readU32 sc with
              | .error e => .error e
              | .ok (tc, sc) =>
                match readWords 3 sc with
                | .error e => .error e
                | .ok (coeffs, _) =>
                  match materialSubChunks lookup c.remaining c [] with
                  | .error e => .error e
                  | .ok texs => .ok ⟨fl, col, unk, tc, coeffs, texs⟩
    else .error (.UnexpectedChunk h.tag)

/-- Modelled from the spec: the material chunks following the material
list's struct — exactly `n` of them, each a material chunk. -/
def readMaterials (lookup : TextureLookup) :
    Nat → Cursor → Except DFFError (List Material × Cursor)
  | 0, c => .ok ([], c)
  | n + 1, c =>
    match readHeader c with
    | .error e => .error e
    | .ok (h, c) =>
      if h.tag = CHUNK_MATERIAL then
        match childCursor h c with
        | .error e => .error e
        | .ok (child, c) =>
          match readMaterial lookup child with
          | .error e => .error e
          | .ok m =>
            match readMaterials lookup n c with
            | .error e => .error e
            | .ok (ms, c) => .ok (m :: ms, c)
      else .error (.UnexpectedChunk h.tag)

/-- Modelled from the spec: `readMaterialList` — reads the struct's count
followed by that many per-entry duplicate-material back-references, then
that many material chunks via `readMaterial`. -/
def readMaterialList (lookup : TextureLookup) (c : Cursor) :
    Except DFFError (List Material) :=
  match readHeader c with
  | .error e => .error e
  | .ok (h, c) =>
    if h.tag = CHUNK_STRUCT then
      match childCursor h c with
      | .error e => .error e
      | .ok (sc, c) =>
        match readU32 sc with
        | .error e => .error e
        | .ok (count, sc) =>
          match readWords count sc with
          | .error e => .error e
          | .ok (_, _) =>
            match readMaterials lookup count c with
            | .error e => .error e
            | .ok (ms, _) => .ok ms
    else .error (.UnexpectedChunk h.tag)

/-- Modelled from the spec: `readBinMeshPLG` — a strip-vs-list flag, a
total index count, a count of per-material bins, then for each bin a
material index and an index sequence. -/
def readBinBins : Nat → Cursor → Except DFFError (List BinMeshBin × Cursor)
  | 0, c => .ok ([], c)
  | n + 1, c =>
    match readU32 c with
    | .error e => .error e
    | .ok (mi, c) =>
      match readU32 c with
      | .error e => .error e
      | .ok (ni, c) =>
        match readWords ni c with
        | .error e => .error e
        | .ok (idxs, c) =>
          match readBinBins n c with
          | .error e => .error e
          | .ok (bs, c) => .ok (⟨mi, idxs⟩ :: bs, c)

/-- Modelled from the spec: the body of the alternate-mesh sub-chunk. -/
def readBinMeshPLG (c : Cursor) : Except DFFError BinMesh :=
  match readU32 c with
  | .error e => .error e
  | .ok (flag, c) =>
    match readU32 c with
    | .error e => .error e
    | .ok (total, c) =>
      match readU32 c with
      | .error e => .error e
      | .ok (nbins, c) =>
        match readBinBins nbins c with
        | .error e => .error e
        | .ok (bins, _) => .ok ⟨flag, total, bins⟩

/-- Modelled from the spec: `readGeometryExtension` — recognizes exactly
the alternate-mesh sub-chunk kind; unrecognized extension sub-chunk kinds
are skipped wholesale using their declared length. -/
def readGeometryExtension :
    Nat → Cursor → Option BinMesh → Except DFFError (Option BinMesh)
  | 0, _, bm => .ok bm
  | fuel + 1, c, bm =>
    if c.remaining = 0 then .ok bm
    else
      match readHeader c with
      | .error e => .error e
      | .ok (h, c) =>
        match childCursor h c with
        | .error e => .error e
        | .ok (child, c) =>
          if h.tag = CHUNK_BINMESHPLG then
            match readBinMeshPLG child with
            | .error e => .error e
            | .ok b => readGeometryExtension fuel c (some b)
          else readGeometryExtension fuel c bm

/-- Modelled from the spec: read `k` texture-coordinate sets for `nv`
vertices (each set is `2 * nv` raw f32 words). -/
def readTexSets (nv : Nat) :
    Nat → Cursor → Except DFFError (List (List Nat) × Cursor)
  | 0, c => .ok ([], c)
  | k + 1, c =>
    match readWords (2 * nv) c with
    | .error e => .error e
    | .ok (ws, c) =>
      match readTexSets nv k c with
      | .error e => .error e
      | .ok (sets, c) => .ok (ws :: sets, c)

/-- Modelled from the spec: read `n` triangles, each as four 16-bit words:
three vertex indices and a material index. -/
def readTriangles : Nat → Cursor → Except DFFError (List Triangle × Cursor)
  | 0, c => .ok ([], c)
  | n + 1, c =>
    match readU16 c with
    | .error e => .error e
    | .ok (a, c) =>
      match readU16 c with
      | .error e => .error e
      | .ok (b, c) =>
        match readU16 c with
        | .error e => .error e
        | .ok (d, c) =>
          match readU16 c with
          | .error e => .error e
          | .ok (m, c) =>
            match readTriangles n c with
            | .error e => .error e
            | .ok (ts, c) => .ok (⟨a, b, d, m⟩ :: ts, c)

/-- The parsed fields of a geometry's struct sub-chunk, before the material
list and extension sub-chunks are read. -/
structure GeomStruct where
  geomFlags : Nat
  uvSetCount : Nat
  vertexCount : Nat
  morphCount : Nat
  boundingSphere : List Nat
  positions : List Nat
  normals : List Nat
  colors : List Nat
  texcoords : List (List Nat)
  triangles : List Triangle
deriving Repr, DecidableEq

/-- Modelled from the spec: the geometry's struct sub-chunk — flags (with
the texture-coordinate set count in the third byte, the normals-present
bit 16 and the colors-present bit 8), vertex count, triangle count, the
morph/frame count when the chunk's format version carries one, the
bounding sphere, then the vertex attribute sequences in fixed order
(positions always; normals and colors if flagged; the texture-coordinate
sets), then the triangle list. -/
def readGeometryStruct (version : Nat) (c : Cursor) :
    Except DFFError GeomStruct :=
  match readU32 c with
  | .error e => .error e
  | .ok (flags, c) =>
    match readU32 c with
    | .error e => .error e
    | .ok (vcount, c) =>
      match readU32 c with
      | .error e => .error e
      | .ok (tcount, c) =>
        match (if 268697599 ≤ version then readU32 c
               else .ok (1, c)) with
        | .error e => .error e
        | .ok (morph, c) =>
          match readWords 4 c with
          | .error e => .error e
          | .ok (sphere, c) =>
            match readWords (3 * vcount) c with
            | .error e => .error e
            | .ok (poss, c) =>
              match (if flags / 16 % 2 = 1 then readWords (3 * vcount) c
                     else .ok ([], c)) with
              | .error e => .error e
              | .ok (norms, c) =>
                match (if flags / 8 % 2 = 1 then readWords vcount c
                       else .ok ([], c)) with
                | .error e => .error e
                | .ok (cols, c) =>
                  match readTexSets vcount (flags / 65536 % 256) c with
                  | .error e => .error e
                  | .ok (texs, c) =>
                    match readTriangles tcount c with
                    | .error e => .error e
                    | .ok (tris, _) =>
                      .ok ⟨flags, flags / 65536 % 256, vcount, morph,
                           sphere, poss, norms, cols, texs, tris⟩

/-- Modelled from the spec: the loop over a geometry chunk's remaining
sub-chunks — the material list chunk and the extension chunk are read,
other kinds are skipped using their declared length. -/
def geomSubChunks (lookup : TextureLookup) :
    Nat → Cursor → List Material → Option BinMesh →
    Except DFFError (List Material × Option BinMesh)
  | 0, _, mats, bm => .ok (mats, bm)
  | fuel + 1, c, mats, bm =>
    if c.remaining = 0 then .ok (mats, bm)
    else
      match readHeader c with
      | .error e => .error e
      | .ok (h, c) =>
        match childCursor h c with
        | .error e => .error e
        | .ok (child, c) =>
          if h.tag = CHUNK_MATERIALLIST then
            match readMaterialList lookup child with
            | .error e => .error e
            | .ok ms => geomSubChunks lookup fuel c ms bm
          else if h.tag = CHUNK_EXTENSION then
            match readGeometryExtension child.remaining child bm with
            | .error e => .error e
            | .ok b => geomSubChunks lookup fuel c mats b
          else geomSubChunks lookup fuel c mats bm

/-- The triangle validity check: every vertex index below the vertex count
and every material index below the material count. -/
def trianglesOK (tris : List Triangle) (vc mc : Nat) : Bool :=
  tris.all fun t =>
    decide (t.v0 < vc) && decide (t.v1 < vc) && decide (t.v2 < vc) &&
      decide (t.materialIndex < mc)

/-- Modelled from the spec: `readGeometry` — reads the struct sub-chunk,
then the material list and extension sub-chunks, and fails with
`ReferenceOutOfRange` if any triangle references an out-of-range vertex or
material index.  A vertex count of zero or a triangle count of zero is
valid (degenerate geometry). -/
def readGeometry (lookup : TextureLookup) (c : Cursor) :
    Except DFFError Geometry :=
  match readHeader c with
  | .error e => .error e
  | .ok (h, c) =>
    if h.tag = CHUNK_STRUCT then
      match childCursor h c with
      | .error e => .error e
      | .ok (sc, c) =>
        match readGeometryStruct h.version sc with
        | .error e => .error e
        | .ok gs =>
          match geomSubChunks lookup c.remaining c [] none with
          | .error e => .error e
          | .ok (mats, bm) =>
            if trianglesOK gs.triangles gs.vertexCount mats.length then
              .ok ⟨gs.geomFlags, gs.uvSetCount, gs.vertexCount,
                   gs.morphCount, gs.boundingSphere, gs.positions,
                   gs.normals, gs.colors, gs.texcoords, gs.triangles,
                   mats, bm⟩
            else .error .ReferenceOutOfRange
    else .error (.UnexpectedChunk h.tag)

/-- Modelled from the spec: the geometry chunks following the geometry
list's struct — exactly `n` of them, each a geometry chunk. -/
def readGeometries (lookup : TextureLookup) :
    Nat → Cursor → Except DFFError (List Geometry × Cursor)
  | 0, c => .ok ([], c)
  | n + 1, c =>
    match readHeader c with
    | .error e => .error e
    | .ok (h, c) =>
      if h.tag = CHUNK_GEOMETRY then
        match childCursor h c with
        | .error e => .error e
        | .ok (child, c) =>
          match readGeometry lookup child with
          | .error e => .error e
          | .ok g =>
            match readGeometries lookup n c with
            | .error e => .error e
            | .ok (gs, c) => .ok (g :: gs, c)
      else .error (.UnexpectedChunk h.tag)

/-- Modelled from the spec: `readGeometryList` — the struct gives the
geometry count, then that many geometry chunks follow. -/
def readGeometryList (lookup : TextureLookup) (c : Cursor) :
    Except DFFError (List Geometry) :=
  match readHeader c with
  | .error e => .error e
  | .ok (h, c) =>
    if h.tag = CHUNK_STRUCT then
      match childCursor h c with
      | .error e => .error e
      | .ok (sc, c) =>
        match readU32 sc with
        | .error e => .error e
        | .ok (count, _) =>
          match readGeometries lookup count c with
          | .error e => .error e
          | .ok (gs, _) => .ok gs
    else .error (.UnexpectedChunk h.tag)

/-- Modelled from the spec: one fixed-size frame record — orientation
matrix (9 words), translation (3 words), signed parent index, flags. -/
def readFrameRec (c : Cursor) :
    Except DFFError ((List Nat × List Nat × Int × Nat) × Cursor) :=
  match readWords 9 c with
  | .error e => .error e
  | .ok (m, c) =>
    match readWords 3 c with
    | .error e => .error e
    | .ok (t, c) =>
      match readI32 c with
      | .error e => .error e
      | .ok (p, c) =>
        match readU32 c with
        | .error e => .error e
        | .ok (fl, c) => .ok ((m, t, p, fl), c)

/-- Modelled from the spec: the frame records of the frame list's struct,
in declared order; `count` is the declared frame count, `i` the position of
the next record.  Fails with `ReferenceOutOfRange` if a parent index is
greater than or equal to the frame count or refers to the record's own
position. -/
def readFrameRecs (count : Nat) :
    Nat → Nat → Cursor → Except DFFError (List Frame × Cursor)
  | 0, _, c => .ok ([], c)
  | n + 1, i, c =>
    match readFrameRec c with
    | .error e => .error e
    | .ok ((m, t, p, fl), c) =>
      if (count : Int) ≤ p ∨ p = (i : Int) then .error .ReferenceOutOfRange
      else
        match readFrameRecs count n (i + 1) c with
        | .error e => .error e
        | .ok (fs, c) => .ok (⟨m, t, p, fl, ""⟩ :: fs, c)

/-- Modelled from the spec: scan one frame extension chunk for the node
name sub-chunk; other sub-chunk kinds are skipped. -/
def nodeNameIn : Nat → Cursor → String → Except DFFError String
  | 0, _, s => .ok s
  | fuel + 1, c, s =>
    if c.remaining = 0 then .ok s
    else
      match readHeader c with
      | .error e => .error e
      | .ok (h, c) =>
        match childCursor h c with
        | .error e => .error e
        | .ok (child, c) =>
          if h.tag = CHUNK_NODENAME then
            nodeNameIn fuel c (decodeString child.bytes)
          else nodeNameIn fuel c s

/-- Modelled from the spec: the per-frame extension chunks that follow the
frame list's struct, in frame order, each optionally carrying a name. -/
def frameExtensions : Nat → Cursor → Except DFFError (List String)
  | 0, _ => .ok []
  | fuel + 1, c =>
    if c.remaining = 0 then .ok []
    else
      match readHeader c with
      | .error e => .error e
      | .ok (h, c) =>
        match childCursor h c with
        | .error e => .error e
        | .ok (child, c) =>
          if h.tag = CHUNK_EXTENSION then
            match nodeNameIn child.remaining child "" with
            | .error e => .error e
            | .ok s =>
              match frameExtensions fuel c with
              | .error e => .error e
              | .ok ss => .ok (s :: ss)
          else
            match frameExtensions fuel c with
            | .error e => .error e
            | .ok ss => .ok ss

/-- Assign the names collected from the extension chunks to the frames, in
the same order; missing names leave the frame unnamed. -/
def applyNames : List Frame → List String → List Frame
  | [], _ => []
  | f :: fs, [] => f :: fs
  | f :: fs, n :: ns => { f with name := n } :: applyNames fs ns

/-- Modelled from the spec: `readFrameList` — the struct gives the frame
count then that many fixed-size records; one extension chunk per frame may
follow in the same order, optionally carrying a name string. -/
def readFrameList (c : Cursor) : Except DFFError (List Frame) :=
  match readHeader c with
  | .error e => .error e
  | .ok (h, c) =>
    if h.tag = CHUNK_STRUCT then
      match childCursor h c with
      | .error e => .error e
      | .ok (sc, c) =>
        match readU32 sc with
        | .error e => .error e
        | .ok (count, sc) =>
          match readFrameRecs count count 0 sc with
          | .error e => .error e
          | .ok (fs, _) =>
            match frameExtensions c.remaining c with
            | .error e => .error e
            | .ok names => .ok (applyNames fs names)
    else .error (.UnexpectedChunk h.tag)

/-- Modelled from the spec: the atomic's struct — frame index, geometry
index, flags, one unused word. -/
def readAtomicStruct (c : Cursor) :
    Except DFFError (Nat × Nat × Nat × Nat) :=
  match readHeader c with
  | .error e => .error e
  | .ok (h, c) =>
    if h.tag = CHUNK_STRUCT then
      match childCursor h c with
      | .error e => .error e
      | .ok (sc, _) =>
        match readU32 sc with
        | .error e => .error e
        | .ok (fi, sc) =>
          match readU32 sc with
          | .error e => .error e
          | .ok (gi, sc) =>
            match readU32 sc with
            | .error e => .error e
            | .ok (fl, sc) =>
              match readU32 sc with
              | .error e => .error e
              | .ok (un, _) => .ok (fi, gi, fl, un)
    else .error (.UnexpectedChunk h.tag)

/-- Modelled from the spec: `readAtomic` — reads the struct's frame index,
geometry index, flags and unused word, and resolves the indices against
the already-built frame and geometry sequences; fails with
`ReferenceOutOfRange` if either index is out of bounds. -/
def readAtomic (framelist : List Frame) (geometrylist : List Geometry)
    (c : Cursor) : Except DFFError Atomic :=
  match readAtomicStruct c with
  | .error e => .error e
  | .ok (fi, gi, fl, _) =>
    if framelist.length ≤ fi ∨ geometrylist.length ≤ gi then
      .error .ReferenceOutOfRange
    else .ok ⟨fi, gi, fl⟩

/-- Modelled from the spec: the atomic chunks of the clump body — exactly
`n` of them (one per declared clump object count), each an atomic chunk. -/
def readAtomics (framelist : List Frame) (geometrylist : List Geometry) :
    Nat → Cursor → Except DFFError (List Atomic × Cursor)
  | 0, c => .ok ([], c)
  | n + 1, c =>
    match readHeader c with
    | .error e => .error e
    | .ok (h, c) =>
      if h.tag = CHUNK_ATOMIC then
        match childCursor h c with
        | .error e => .error e
        | .ok (child, c) =>
          match readAtomic framelist geometrylist child with
          | .error e => .error e
          | .ok a =>
            match readAtomics framelist geometrylist n c with
            | .error e => .error e
            | .ok (as_, c) => .ok (a :: as_, c)
      else .error (.UnexpectedChunk h.tag)

/-- Modelled from the spec: the tail of the loader driver — the atomic
chunks, then an optional trailing extension chunk skipped wholesale. -/
def loadClumpBody (framelist : List Frame) (geometrylist : List Geometry)
    (numAtomics : Nat) (c : Cursor) : Except DFFError Clump :=
  match readAtomics framelist geometrylist numAtomics c with
  | .error e => .error e
  | .ok (atomics, c) =>
    if c.remaining = 0 then .ok ⟨framelist, geometrylist, atomics⟩
    else
      match readHeader c with
      | .error e => .error e
      | .ok (h, c) =>
        if h.tag = CHUNK_EXTENSION then
          match childCursor h c with
          | .error e => .error e
          | .ok _ => .ok ⟨framelist, geometrylist, atomics⟩
        else .error (.UnexpectedChunk h.tag)

/-- Modelled from the spec: the driver stage expecting exactly one
geometry-list chunk. -/
def loadGeometryListStage (lookup : TextureLookup) (numAtomics : Nat)
    (framelist : List Frame) (c : Cursor) : Except DFFError Clump :=
  match readHeader c with
  | .error e => .error e
  | .ok (h, c) =>
    if h.tag = CHUNK_GEOMETRYLIST then
      match childCursor h c with
      | .error e => .error e
      | .ok (child, c) =>
        match readGeometryList lookup child with
        | .error e => .error e
        | .ok geometrylist => loadClumpBody framelist geometrylist numAtomics c
    else .error (.UnexpectedChunk h.tag)

/-- Modelled from the spec: the driver stage expecting exactly one
frame-list chunk. -/
def loadFrameListStage (lookup : TextureLookup) (numAtomics : Nat)
    (c : Cursor) : Except DFFError Clump :=
  match readHeader c with
  | .error e => .error e
  | .ok (h, c) =>
    if h.tag = CHUNK_FRAMELIST then
      match childCursor h c with
      | .error e => .error e
      | .ok (child, c) =>
        match readFrameList child with
        | .error e => .error e
        | .ok framelist => loadGeometryListStage lookup numAtomics framelist c
    else .error (.UnexpectedChunk h.tag)

/-- Modelled from the spec: the driver stage expecting the clump's struct
sub-chunk (the declared object counts, of which the first word is the
atomic count). -/
def loadClumpStage (lookup : TextureLookup) (c : Cursor) :
    Except DFFError Clump :=
  match readHeader c with
  | .error e => .error e
  | .ok (h, c) =>
    if h.tag = CHUNK_STRUCT then
      match childCursor h c with
      | .error e => .error e
      | .ok (sc, c) =>
        match readU32 sc with
        | .error e => .error e
        | .ok (numAtomics, _) => loadFrameListStage lookup numAtomics c
    else .error (.UnexpectedChunk h.tag)

/-- Modelled from the spec: `loadFromMemory` — the top-level state machine:
the outer bytes must open with a clump chunk; inside it, the struct
sub-chunk (object counts), then exactly one frame-list chunk, then exactly
one geometry-list chunk, then the atomic chunks, then an optional trailing
extension chunk.  Any chunk kind out of the expected position is a fatal
`UnexpectedChunk`; the first failure is returned and no partial clump is
produced. -/
def loadFromMemory (lookup : TextureLookup) (bytes : List Nat) :
    Except DFFError Clump :=
  match readHeader ⟨bytes, 0⟩ with
  | .error e => .error e
  | .ok (h, c) =>
    if h.tag = CHUNK_CLUMP then
      match childCursor h c with
      | .error e => .error e
      | .ok (child, _) => loadClumpStage lookup child
    else .error (.UnexpectedChunk h.tag)

/-- `AtomicPtr` of `GameObject.hpp`: a shared pointer to an atomic, null
when empty (modelled as `Option`). -/
abbrev AtomicPtr := Option Atomic

/-- `ClumpPtr` of `GameObject.hpp`: a shared pointer to a clump, null when
empty (modelled as `Option`). -/
abbrev ClumpPtr := Option Clump

/-- `GameObject::NullAtomic`: the null atomic pointer constant. -/
def NullAtomic : AtomicPtr := none

/-- `GameObject::NullClump`: the null clump pointer constant. -/
def NullClump : ClumpPtr := none

/-- `GameObject::ObjectLifetime` of `GameObject.hpp`. -/
inductive ObjectLifetime where
  | UnknownLifetime
  | TrafficLifetime
  | MissionLifetime
  | PlayerLifetime
deriving Repr, DecidableEq

/-- The state of a `GameObject` relevant to its model and lifetime
members: `model_` is `std::variant<AtomicPtr, ClumpPtr>` (modelled as a
sum), `lifetime` defaults to `UnknownLifetime`. -/
structure GameObject where
  objectID : Nat
  model_ : AtomicPtr ⊕ ClumpPtr
  visible : Bool
  inWater : Bool
  lifetime : ObjectLifetime

/-- The `GameObject` constructor: the variant member is default-initialized
to its first alternative (a null `AtomicPtr`), `lifetime` to
`UnknownLifetime`, `objectID` to 0, `visible` to true, `inWater` to
false. -/
def GameObject.construct : GameObject :=
  ⟨0, .inl NullAtomic, true, false, .UnknownLifetime⟩

/-- `GameObject::getAtomic`: the held atomic pointer if the variant holds
the `AtomicPtr` alternative, else `NullAtomic`. -/
def GameObject.getAtomic (g : GameObject) : AtomicPtr :=
  match g.model_ with
  | .inl a => a
  | .inr _ => NullAtomic

/-- `GameObject::getClump`: the held clump pointer if the variant holds
the `ClumpPtr` alternative, else `NullClump`. -/
def GameObject.getClump (g : GameObject) : ClumpPtr :=
  match g.model_ with
  | .inl _ => NullClump
  | .inr c => c

/-- `GameObject::setModel(const AtomicPtr&)`: assign the atomic pointer
into the variant. -/
def GameObject.setModelAtomic (g : GameObject) (m : AtomicPtr) : GameObject :=
  { g with model_ := .inl m }

/-- `GameObject::setModel(const ClumpPtr&)`: assign the clump pointer into
the variant. -/
def GameObject.setModelClump (g : GameObject) (m : ClumpPtr) : GameObject :=
  { g with model_ := .inr m }

/-- `GameObject::setLifetime`. -/
def GameObject.setLifetime (g : GameObject) (ol : ObjectLifetime) :
    GameObject :=
  { g with lifetime := ol }

/-- `GameObject::getLifetime`. -/
def GameObject.getLifetime (g : GameObject) : ObjectLifetime := g.lifetime

/-- `GameObject::canBeRemoved`: false for `MissionLifetime` and
`PlayerLifetime`, true otherwise. -/
def GameObject.canBeRemoved (g : GameObject) : Bool :=
  match g.lifetime with
  | .MissionLifetime => false
  | .PlayerLifetime => false
  | _ => true

/-- Serialize a 32-bit word little-endian. -/
def u32le (n : Nat) : List Nat :=
  [n % 256, n / 256 % 256, n / 65536 % 256, n / 16777216 % 256]

/-- Serialize a 16-bit word little-endian. -/
def u16le (n : Nat) : List Nat := [n % 256, n / 256 % 256]

/-- Frame a payload as one chunk: tag, declared payload length, version,
payload. -/
def mkChunk (tag ver : Nat) (payload : List Nat) : List Nat :=
  u32le tag ++ u32le payload.length ++ u32le ver ++ payload

/-- One frame record: identity-free zero matrix and translation words, a
parent index word and a flags word. -/
def frameRecBytes (parentWord : Nat) : List Nat :=
  (List.replicate 48 0) ++ u32le parentWord ++ u32le 0

/-- The sample frame list chunk: one root frame (parent −1). -/
def sampleFrameList : List Nat :=
  mkChunk CHUNK_FRAMELIST 0
    (mkChunk CHUNK_STRUCT 0 (u32le 1 ++ frameRecBytes 4294967295))

/-- The sample geometry struct payload: flags declaring one
texture-coordinate set and no normals or colors, 3 vertices, 1 triangle,
a zero bounding sphere, zero positions and texture coordinates, and the
triangle (0, 1, 2) with material index 0. -/
def sampleGeomStructPayload : List Nat :=
  u32le 65536 ++ u32le 3 ++ u32le 1 ++
    List.replicate 16 0 ++ List.replicate 36 0 ++ List.replicate 24 0 ++
    (u16le 0 ++ u16le 1 ++ u16le 2 ++ u16le 0)

/-- The sample material list chunk: one untextured material (white color,
no texture sub-chunk). -/
def sampleMaterialList : List Nat :=
  mkChunk CHUNK_MATERIALLIST 0
    (mkChunk CHUNK_STRUCT 0 (u32le 1 ++ u32le 4294967295) ++
     mkChunk CHUNK_MATERIAL 0
       (mkChunk CHUNK_STRUCT 0
         (u32le 0 ++ u32le 4294967295 ++ u32le 0 ++ u32le 0 ++
          List.replicate 12 0)))

/-- The sample geometry chunk. -/
def sampleGeometry : List Nat :=
  mkChunk CHUNK_GEOMETRY 0
    (mkChunk CHUNK_STRUCT 0 sampleGeomStructPayload ++ sampleMaterialList)

/-- The sample geometry list chunk: exactly one geometry. -/
def sampleGeometryList : List Nat :=
  mkChunk CHUNK_GEOMETRYLIST 0
    (mkChunk CHUNK_STRUCT 0 (u32le 1) ++ sampleGeometry)

/-- The sample atomic chunk: frame index 0, geometry index 0, flags 5. -/
def sampleAtomic : List Nat :=
  mkChunk CHUNK_ATOMIC 0
    (mkChunk CHUNK_STRUCT 0
      (u32le 0 ++ u32le 0 ++ u32le 5 ++ u32le 0))

/-- The sample well-formed DFF buffer (the spec's scenario: one root
frame, one geometry with one triangle over three vertices and one
untextured material, one atomic binding frame 0 to geometry 0). -/
def sampleDFF : List Nat :=
  mkChunk CHUNK_CLUMP 0
    (mkChunk CHUNK_STRUCT 0 (u32le 1) ++
     sampleFrameList ++ sampleGeometryList ++ sampleAtomic)

set_option maxRecDepth 40000

instance {ε α : Type} [DecidableEq ε] [DecidableEq α] :
    DecidableEq (Except ε α) := fun a b =>
  match a, b with
  | .ok x, .ok y =>
    if h : x = y then .isTrue (by rw [h]) else .isFalse (by simp [h])
  | .error x, .error y =>
    if h : x = y then .isTrue (by rw [h]) else .isFalse (by simp [h])
  | .ok _, .error _ => .isFalse (by simp)
  | .error _, .ok _ => .isFalse (by simp)

/-- The clump the sample buffer parses to. -/
def sampleClump : Clump :=
  ⟨[⟨[0, 0, 0, 0, 0, 0, 0, 0, 0], [0, 0, 0], -1, 0, ""⟩],
   [⟨65536, 1, 3, 1, [0, 0, 0, 0], [0, 0, 0, 0, 0, 0, 0, 0, 0], [], [],
     [[0, 0, 0, 0, 0, 0]], [⟨0, 1, 2, 0⟩],
     [⟨0, 4294967295, 0, 0, [0, 0, 0], []⟩], none⟩],
   [⟨0, 0, 5⟩]⟩

/-- A texture chunk declaring diffuse name "a" and an empty mask name. -/
def sampleTextureChunk : List Nat :=
  mkChunk CHUNK_TEXTURE 0
    (mkChunk CHUNK_STRUCT 0 (u32le 0) ++
     mkChunk CHUNK_STRING 0 [97, 0, 0, 0] ++
     mkChunk CHUNK_STRING 0 [0, 0, 0, 0])

/-- The sample material list with one textured material. -/
def texturedMaterialList : List Nat :=
  mkChunk CHUNK_MATERIALLIST 0
    (mkChunk CHUNK_STRUCT 0 (u32le 1 ++ u32le 4294967295) ++
     mkChunk CHUNK_MATERIAL 0
       (mkChunk CHUNK_STRUCT 0
         (u32le 0 ++ u32le 4294967295 ++ u32le 0 ++ u32le 1 ++
          List.replicate 12 0) ++ sampleTextureChunk))

/-- The sample DFF buffer whose single material declares a texture. -/
def texturedDFF : List Nat :=
  mkChunk CHUNK_CLUMP 0
    (mkChunk CHUNK_STRUCT 0 (u32le 1) ++
     sampleFrameList ++
     mkChunk CHUNK_GEOMETRYLIST 0
       (mkChunk CHUNK_STRUCT 0 (u32le 1) ++
        mkChunk CHUNK_GEOMETRY 0
          (mkChunk CHUNK_STRUCT 0 sampleGeomStructPayload ++
           texturedMaterialList)) ++
     sampleAtomic)

/-- The clump `texturedDFF` parses to when every texture lookup answers
"not found": the material keeps the unresolved texture marker. -/
def texturedClumpUnresolved : Clump :=
  ⟨[⟨[0, 0, 0, 0, 0, 0, 0, 0, 0], [0, 0, 0], -1, 0, ""⟩],
   [⟨65536, 1, 3, 1, [0, 0, 0, 0], [0, 0, 0, 0, 0, 0, 0, 0, 0], [], [],
     [[0, 0, 0, 0, 0, 0]], [⟨0, 1, 2, 0⟩],
     [⟨0, 4294967295, 0, 1, [0, 0, 0], [⟨"a", "", 0, none⟩]⟩], none⟩],
   [⟨0, 0, 5⟩]⟩

/-- A buffer whose outermost chunk is not a clump chunk. -/
def badTopTagDFF : List Nat := mkChunk CHUNK_STRUCT 0 []

/-- A clump buffer with the frame list and the geometry list swapped. -/
def swappedOrderDFF : List Nat :=
  mkChunk CHUNK_CLUMP 0
    (mkChunk CHUNK_STRUCT 0 (u32le 1) ++
     sampleGeometryList ++ sampleFrameList ++ sampleAtomic)

/-- The sample buffer with the atomic's geometry index set to 1, out of
range for its one-entry geometry list. -/
def badAtomicDFF : List Nat :=
  mkChunk CHUNK_CLUMP 0
    (mkChunk CHUNK_STRUCT 0 (u32le 1) ++
     sampleFrameList ++ sampleGeometryList ++
     mkChunk CHUNK_ATOMIC 0
       (mkChunk CHUNK_STRUCT 0
         (u32le 0 ++ u32le 1 ++ u32le 5 ++ u32le 0)))

/-- The sample geometry struct payload with the triangle's third vertex
index set to 5, out of range for 3 vertices. -/
def badTriangleStructPayload : List Nat :=
  u32le 65536 ++ u32le 3 ++ u32le 1 ++
    List.replicate 16 0 ++ List.replicate 36 0 ++ List.replicate 24 0 ++
    (u16le 0 ++ u16le 1 ++ u16le 5 ++ u16le 0)

/-- The sample buffer whose geometry's triangle references vertex 5. -/
def badTriangleDFF : List Nat :=
  mkChunk CHUNK_CLUMP 0
    (mkChunk CHUNK_STRUCT 0 (u32le 1) ++
     sampleFrameList ++
     mkChunk CHUNK_GEOMETRYLIST 0
       (mkChunk CHUNK_STRUCT 0 (u32le 1) ++
        mkChunk CHUNK_GEOMETRY 0
          (mkChunk CHUNK_STRUCT 0 badTriangleStructPayload ++
           sampleMaterialList)) ++
     sampleAtomic)

/-- The payload of a geometry chunk describing a degenerate geometry: zero
vertices, zero triangles, no attributes, an empty material list. -/
def degenerateGeomPayload : List Nat :=
  mkChunk CHUNK_STRUCT 0
    (u32le 0 ++ u32le 0 ++ u32le 0 ++ List.replicate 16 0) ++
  mkChunk CHUNK_MATERIALLIST 0 (mkChunk CHUNK_STRUCT 0 (u32le 0))

/-- The payload of a frame-list chunk whose single frame names itself as
its parent (parent index 0 at position 0). -/
def selfParentFrameListPayload : List Nat :=
  mkChunk CHUNK_STRUCT 0 (u32le 1 ++ frameRecBytes 0)

/-- The payload of a frame-list chunk whose single frame's parent index 5
is at least the declared frame count 1. -/
def bigParentFrameListPayload : List Nat :=
  mkChunk CHUNK_STRUCT 0 (u32le 1 ++ frameRecBytes 5)

/-- A buffer whose clump chunk declares a 100-byte payload but carries
none. -/
def truncatedDFF : List Nat := u32le CHUNK_CLUMP ++ u32le 100 ++ u32le 0

/-- Replace a texture reference's resolved handle with the unresolved
marker. -/
def stripTex (t : TextureRef) : TextureRef := { t with handle := none }

/-- Strip the resolved handles of a material's textures. -/
def stripMat (m : Material) : Material :=
  { m with textures := m.textures.map stripTex }

/-- Strip the resolved handles of a geometry's materials. -/
def stripGeom (g : Geometry) : Geometry :=
  { g with materials := g.materials.map stripMat }

/-- Strip the resolved handles of every material of a clump. -/
def stripClump (cl : Clump) : Clump :=
  { cl with geometries := cl.geometries.map stripGeom }

/-- Whether every texture reference of every material of the clump is
unresolved. -/
def clumpTexturesUnresolved (cl : Clump) : Bool :=
  cl.geometries.all fun g =>
    g.materials.all fun m => m.textures.all fun t => t.handle.isNone

/-- C9: GameObject's model accessors are exclusive and round-trip: after
`setModel` with an `AtomicPtr` a, `getAtomic` returns a and `getClump`
returns the null `ClumpPtr`; after `setModel` with a `ClumpPtr` c,
`getClump` returns c and `getAtomic` returns the null `AtomicPtr`; at most
one of `getAtomic`/`getClump` is non-null at any time. -/
theorem gameObject_model_exclusive_roundtrip :
    (∀ (g : GameObject) (a : AtomicPtr),
      (g.setModelAtomic a).getAtomic = a ∧
      (g.setModelAtomic a).getClump = NullClump) ∧
    (∀ (g : GameObject) (c : ClumpPtr),
      (g.setModelClump c).getClump = c ∧
      (g.setModelClump c).getAtomic = NullAtomic) ∧
    (∀ g : GameObject, g.getAtomic = NullAtomic ∨ g.getClump = NullClump) := by
  refine ⟨fun g a => ⟨rfl, rfl⟩, fun g c => ⟨rfl, rfl⟩, fun g => ?_⟩
  cases h : g.model_ with
  | inl a => right; simp [GameObject.getClump, h]
  | inr c => left; simp [GameObject.getAtomic, h]

/-- C10: for every GameObject and every lifetime set via `setLifetime`,
`canBeRemoved` returns false exactly for `MissionLifetime` and
`PlayerLifetime`; a freshly constructed object has `UnknownLifetime` and is
removable, and a `TrafficLifetime` object is removable. -/
theorem gameObject_canBeRemoved_iff_lifetime :
    (∀ (g : GameObject) (l : ObjectLifetime),
      ((g.setLifetime l).canBeRemoved = false ↔
        l = .MissionLifetime ∨ l = .PlayerLifetime)) ∧
    GameObject.construct.getLifetime = .UnknownLifetime ∧
    GameObject.construct.canBeRemoved = true ∧
    (∀ g : GameObject,
      (g.setLifetime .TrafficLifetime).canBeRemoved = true) := by
  refine ⟨fun g l => ?_, rfl, rfl, fun g => rfl⟩
  cases l <;> simp [GameObject.setLifetime, GameObject.canBeRemoved]

/-- C7: when `childCursor` succeeds, the parent cursor is positioned
exactly at the end of the child's declared payload length, over the same
buffer, independent of anything the child later does; the child cursor is
scoped to exactly the declared payload bytes, so no read through it can
reach past the declared length (every primitive read stays within the
cursor's own byte sequence and leaves the buffer unchanged).  The closed
conjunct exercises `childCursor` on a concrete cursor. -/
theorem childCursor_scoping :
    (∀ (h : ChunkHeader) (c child parent : Cursor),
      childCursor h c = .ok (child, parent) →
      parent.bytes = c.bytes ∧ parent.pos = c.pos + h.length ∧
      child.pos = 0 ∧ child.bytes.length = h.length ∧
      child.bytes = (c.bytes.drop c.pos).take h.length) ∧
    (∀ (d : Cursor) (n : Nat) (d' : Cursor),
      readU32 d = .ok (n, d') →
      d'.bytes = d.bytes ∧ d'.pos = d.pos + 4 ∧ d'.pos ≤ d.bytes.length) ∧
    (∀ (d : Cursor) (n : Nat) (d' : Cursor),
      readU16 d = .ok (n, d') →
      d'.bytes = d.bytes ∧ d'.pos = d.pos + 2 ∧ d'.pos ≤ d.bytes.length) ∧
    (∀ (d : Cursor) (n : Nat) (d' : Cursor),
      readU8 d = .ok (n, d') →
      d'.bytes = d.bytes ∧ d'.pos = d.pos + 1 ∧ d'.pos ≤ d.bytes.length) ∧
    (∀ (n : Nat) (d d' : Cursor),
      skipBytes n d = .ok d' →
      d'.bytes = d.bytes ∧ d'.pos = d.pos + n ∧ d'.pos ≤ d.bytes.length) ∧
    childCursor ⟨5, 3, 0⟩ ⟨[1, 2, 3, 4, 5], 1⟩ =
      .ok (⟨[2, 3, 4], 0⟩, ⟨[1, 2, 3, 4, 5], 4⟩) := by
  refine ⟨fun h c child parent hcc => ?_, fun d n d' hr => ?_,
          fun d n d' hr => ?_, fun d n d' hr => ?_, fun n d d' hr => ?_,
          by decide⟩
  · unfold childCursor at hcc
    split at hcc
    · rename_i hle
      simp only [Except.ok.injEq, Prod.mk.injEq] at hcc
      obtain ⟨h1, h2⟩ := hcc
      subst h1; subst h2
      refine ⟨rfl, rfl, rfl, ?_, rfl⟩
      simp only [List.length_take, List.length_drop]
      omega
    · exact absurd hcc (by simp)
  · unfold readU32 at hr
    split at hr
    · rename_i hle
      simp only [Except.ok.injEq, Prod.mk.injEq] at hr
      obtain ⟨-, h2⟩ := hr
      subst h2
      exact ⟨rfl, rfl, by dsimp only; omega⟩
    · exact absurd hr (by simp)
  · unfold readU16 at hr
    split at hr
    · rename_i hle
      simp only [Except.ok.injEq, Prod.mk.injEq] at hr
      obtain ⟨-, h2⟩ := hr
      subst h2
      exact ⟨rfl, rfl, by dsimp only; omega⟩
    · exact absurd hr (by simp)
  · unfold readU8 at hr
    split at hr
    · rename_i hle
      simp only [Except.ok.injEq, Prod.mk.injEq] at hr
      obtain ⟨-, h2⟩ := hr
      subst h2
      exact ⟨rfl, rfl, by dsimp only; omega⟩
    · exact absurd hr (by simp)
  · unfold skipBytes at hr
    split at hr
    · rename_i hle
      simp only [Except.ok.injEq] at hr
      subst hr
      exact ⟨rfl, rfl, by dsimp only; omega⟩
    · exact absurd hr (by simp)

theorem readU32_ok_of_le (c : Cursor) (hle : c.pos + 4 ≤ c.bytes.length) :
    ∃ v, readU32 c = .ok (v, ⟨c.bytes, c.pos + 4⟩) := by
  unfold readU32; rw [if_pos hle]; exact ⟨_, rfl⟩

theorem readU32_trunc (c : Cursor) (hgt : ¬ c.pos + 4 ≤ c.bytes.length) :
    readU32 c = .error .Truncated := by
  unfold readU32; rw [if_neg hgt]

theorem readHeader_trunc (c : Cursor) (h : c.remaining < 12) :
    readHeader c = .error .Truncated := by
  unfold Cursor.remaining at h
  unfold readHeader
  by_cases h1 : c.pos + 4 ≤ c.bytes.length
  · obtain ⟨v1, hv1⟩ := readU32_ok_of_le c h1
    rw [hv1]
    dsimp only
    by_cases h2 : c.pos + 8 ≤ c.bytes.length
    · obtain ⟨v2, hv2⟩ := readU32_ok_of_le ⟨c.bytes, c.pos + 4⟩ (by dsimp only; omega)
      dsimp only at hv2
      rw [hv2]
      dsimp only
      rw [readU32_trunc ⟨c.bytes, c.pos + 4 + 4⟩ (by dsimp only; omega)]
    · rw [readU32_trunc ⟨c.bytes, c.pos + 4⟩ (by dsimp only; omega)]
  · rw [readU32_trunc c h1]

/-- C6: a chunk whose declared payload length claims more bytes than remain
fails with `Truncated`: `childCursor` fails when the declared length
exceeds the bytes remaining in the parent, every primitive read and `skip`
fails when insufficient bytes remain, a chunk header read fails when fewer
than its 12 bytes remain, the loader fails with `Truncated` whenever the
top-level clump chunk over-declares its payload, and the concrete
over-declaring buffer `truncatedDFF` fails with `Truncated`. -/
theorem truncation_detected :
    (∀ (h : ChunkHeader) (c : Cursor), c.remaining < h.length →
      childCursor h c = .error .Truncated) ∧
    (∀ c : Cursor, c.remaining < 4 → readU32 c = .error .Truncated) ∧
    (∀ c : Cursor, c.remaining < 2 → readU16 c = .error .Truncated) ∧
    (∀ c : Cursor, c.remaining < 1 → readU8 c = .error .Truncated) ∧
    (∀ (n : Nat) (c : Cursor), c.remaining < n → skipBytes n c = .error .Truncated) ∧
    (∀ c : Cursor, c.remaining < 12 → readHeader c = .error .Truncated) ∧
    (∀ (lookup : TextureLookup) (bytes : List Nat) (h : ChunkHeader) (c : Cursor),
      readHeader ⟨bytes, 0⟩ = .ok (h, c) → h.tag = CHUNK_CLUMP →
      c.remaining < h.length → loadFromMemory lookup bytes = .error .Truncated) ∧
    loadFromMemory noneLookup truncatedDFF = .error .Truncated := by
  have hcc : ∀ (h : ChunkHeader) (c : Cursor), c.remaining < h.length →
      childCursor h c = .error .Truncated := by
    intro h c hlt
    unfold Cursor.remaining at hlt
    unfold childCursor
    rw [if_neg (by omega)]
  refine ⟨hcc, fun c hlt => ?_, fun c hlt => ?_, fun c hlt => ?_,
          fun n c hlt => ?_, fun c hlt => readHeader_trunc c hlt,
          fun lookup bytes h c hrh htag hlt => ?_, by decide⟩
  · unfold Cursor.remaining at hlt
    unfold readU32; rw [if_neg (by omega)]
  · unfold Cursor.remaining at hlt
    unfold readU16; rw [if_neg (by omega)]
  · unfold Cursor.remaining at hlt
    unfold readU8; rw [if_neg (by omega)]
  · unfold Cursor.remaining at hlt
    unfold skipBytes; rw [if_neg (by omega)]
  · simp only [loadFromMemory, hrh, htag, if_true]
    rw [hcc h c hlt]

/-- C1: `loadFromMemory` is deterministic — two runs on identical byte
buffers with the same texture-lookup callback that both produce clumps
produce identical frame counts, geometry counts, atomic counts, identical
per-triangle and per-vertex data, and in fact identical clumps. -/
theorem loadFromMemory_deterministic (lookup : TextureLookup)
    (bytes : List Nat) (c1 c2 : Clump)
    (h1 : loadFromMemory lookup bytes = .ok c1)
    (h2 : loadFromMemory lookup bytes = .ok c2) :
    c1.frames.length = c2.frames.length ∧
    c1.geometries.length = c2.geometries.length ∧
    c1.atomics.length = c2.atomics.length ∧
    c1.geometries.map Geometry.triangles =
      c2.geometries.map Geometry.triangles ∧
    c1.geometries.map Geometry.positions =
      c2.geometries.map Geometry.positions ∧
    c1 = c2 := by
  rw [h1] at h2
  injection h2 with h
  subst h
  exact ⟨rfl, rfl, rfl, rfl, rfl, rfl⟩

/-- Witness for C1: the deterministic load of the concrete sample buffer
(one frame, one geometry, one atomic). -/
theorem loadFromMemory_deterministic_witness :
    sampleClump.frames.length = sampleClump.frames.length ∧
    sampleClump.geometries.length = sampleClump.geometries.length ∧
    sampleClump.atomics.length = sampleClump.atomics.length ∧
    sampleClump.geometries.map Geometry.triangles =
      sampleClump.geometries.map Geometry.triangles ∧
    sampleClump.geometries.map Geometry.positions =
      sampleClump.geometries.map Geometry.positions ∧
    sampleClump = sampleClump :=
  loadFromMemory_deterministic noneLookup sampleDFF sampleClump sampleClump
    (by decide) (by decide)

theorem readFrameRecs_sound (count : Nat) :
    ∀ (n i : Nat) (c : Cursor) (fs : List Frame) (c' : Cursor),
      readFrameRecs count n i c = .ok (fs, c') →
      fs.length = n ∧
      ∀ j, j < n → (fs.getD j default).parent < (count : Int) ∧
                   (fs.getD j default).parent ≠ ((i + j : Nat) : Int) := by
  intro n
  induction n with
  | zero =>
    intro i c fs c' hok
    simp only [readFrameRecs, Except.ok.injEq, Prod.mk.injEq] at hok
    obtain ⟨h1, -⟩ := hok
    subst h1
    exact ⟨rfl, fun j hj => absurd hj (by omega)⟩
  | succ n ih =>
    intro i c fs c' hok
    cases hrec : readFrameRec c with
    | error e => simp [readFrameRecs, hrec] at hok
    | ok p =>
      obtain ⟨⟨m, t, pr, fl⟩, c1⟩ := p
      simp only [readFrameRecs, hrec] at hok
      split at hok
      · exact absurd hok (by simp)
      · rename_i hcond
        push_neg at hcond
        obtain ⟨hlt, hne⟩ := hcond
        cases hrecs : readFrameRecs count n (i + 1) c1 with
        | error e => rw [hrecs] at hok; exact absurd hok (by simp)
        | ok q =>
          obtain ⟨fs', c''⟩ := q
          rw [hrecs] at hok
          simp only [Except.ok.injEq, Prod.mk.injEq] at hok
          obtain ⟨h1, -⟩ := hok
          subst h1
          obtain ⟨hlen, hinv⟩ := ih (i + 1) c1 fs' c'' hrecs
          refine ⟨by simp [hlen], fun j hj => ?_⟩
          cases j with
          | zero =>
            simp only [List.getD_cons_zero]
            exact ⟨by omega, by simpa using hne⟩
          | succ j =>
            simp only [List.getD_cons_succ]
            obtain ⟨ha, hb⟩ := hinv j (by omega)
            refine ⟨ha, ?_⟩
            have : i + 1 + j = i + (j + 1) := by omega
            rwa [this] at hb

theorem applyNames_length : ∀ (fs : List Frame) (ns : List String),
    (applyNames fs ns).length = fs.length := by
  intro fs
  induction fs with
  | nil => intro ns; cases ns <;> rfl
  | cons f fs ih =>
    intro ns
    cases ns with
    | nil => rfl
    | cons n ns => simp [applyNames, ih]

theorem applyNames_parent : ∀ (fs : List Frame) (ns : List String) (j : Nat),
    ((applyNames fs ns).getD j default).parent =
      (fs.getD j default).parent := by
  intro fs
  induction fs with
  | nil => intro ns j; cases ns <;> rfl
  | cons f fs ih =>
    intro ns j
    cases ns with
    | nil => rfl
    | cons n ns =>
      cases j with
      | zero => rfl
      | succ j => simp only [applyNames, List.getD_cons_succ, ih]

theorem readFrameList_parents (c : Cursor) (frames : List Frame)
    (hok : readFrameList c = .ok frames) :
    ∀ j, j < frames.length →
      (frames.getD j default).parent = -1 ∨
      ((frames.getD j default).parent < (frames.length : Int) ∧
       (frames.getD j default).parent ≠ (j : Int)) := by
  cases hh : readHeader c with
  | error e => simp [readFrameList, hh] at hok
  | ok p =>
    obtain ⟨h, c1⟩ := p
    simp only [readFrameList, hh] at hok
    split at hok
    · cases hcc : childCursor h c1 with
      | error e => rw [hcc] at hok; exact absurd hok (by simp)
      | ok q =>
        obtain ⟨sc, c2⟩ := q
        rw [hcc] at hok
        simp only at hok
        cases hu : readU32 sc with
        | error e => rw [hu] at hok; exact absurd hok (by simp)
        | ok r =>
          obtain ⟨count, sc1⟩ := r
          rw [hu] at hok
          simp only at hok
          cases hfr : readFrameRecs count count 0 sc1 with
          | error e => rw [hfr] at hok; exact absurd hok (by simp)
          | ok s =>
            obtain ⟨fs, sc2⟩ := s
            rw [hfr] at hok
            simp only at hok
            cases hfe : frameExtensions c2.remaining c2 with
            | error e => rw [hfe] at hok; exact absurd hok (by simp)
            | ok names =>
              rw [hfe] at hok
              simp only [Except.ok.injEq] at hok
              subst hok
              obtain ⟨hlen, hinv⟩ := readFrameRecs_sound count count 0 sc1 fs sc2 hfr
              intro j hj
              rw [applyNames_length] at hj
              right
              rw [applyNames_parent, applyNames_length, hlen]
              obtain ⟨ha, hb⟩ := hinv j (by omega)
              exact ⟨ha, by simpa using hb⟩
    · exact absurd hok (by simp)

/-- C5: `readFrameList` fails with `ReferenceOutOfRange` whenever a frame
record's parent index is at least the declared frame count or equal to the
frame's own position; consequently every frame of a produced frame list
has a parent index that is either the −1 sentinel or below the frame count
and different from its own position.  The closed conjuncts exercise the
self-parent and the too-large-parent failures on concrete buffers. -/
theorem readFrameList_parent_bounds :
    (∀ (count n i : Nat) (c : Cursor) (m t : List Nat) (p : Int)
       (fl : Nat) (c1 : Cursor),
      readFrameRec c = .ok ((m, t, p, fl), c1) →
      ((count : Int) ≤ p ∨ p = (i : Int)) →
      readFrameRecs count (n + 1) i c = .error .ReferenceOutOfRange) ∧
    (∀ (c : Cursor) (frames : List Frame),
      readFrameList c = .ok frames →
      ∀ j, j < frames.length →
        (frames.getD j default).parent = -1 ∨
        ((frames.getD j default).parent < (frames.length : Int) ∧
         (frames.getD j default).parent ≠ (j : Int))) ∧
    readFrameList ⟨selfParentFrameListPayload, 0⟩ =
      .error .ReferenceOutOfRange ∧
    readFrameList ⟨bigParentFrameListPayload, 0⟩ =
      .error .ReferenceOutOfRange := by
  refine ⟨fun count n i c m t p fl c1 hrec hcond => ?_,
          readFrameList_parents, by decide, by decide⟩
  simp only [readFrameRecs, hrec]
  rw [if_pos hcond]

theorem readAtomic_sound (fl : List Frame) (gl : List Geometry)
    (c : Cursor) (a : Atomic) (hok : readAtomic fl gl c = .ok a) :
    a.frameIndex < fl.length ∧ a.geometryIndex < gl.length := by
  cases hs : readAtomicStruct c with
  | error e => simp [readAtomic, hs] at hok
  | ok p =>
    obtain ⟨fi, gi, f, u⟩ := p
    simp only [readAtomic, hs] at hok
    split at hok
    · exact absurd hok (by simp)
    · rename_i hcond
      push_neg at hcond
      simp only [Except.ok.injEq] at hok
      subst hok
      exact ⟨by dsimp only; omega, by dsimp only; omega⟩

theorem readAtomics_sound (fl : List Frame) (gl : List Geometry) :
    ∀ (n : Nat) (c : Cursor) (as_ : List Atomic) (c' : Cursor),
      readAtomics fl gl n c = .ok (as_, c') →
      ∀ a ∈ as_, a.frameIndex < fl.length ∧ a.geometryIndex < gl.length := by
  intro n
  induction n with
  | zero =>
    intro c as_ c' hok
    simp only [readAtomics, Except.ok.injEq, Prod.mk.injEq] at hok
    obtain ⟨h1, -⟩ := hok
    subst h1
    intro a ha
    exact absurd ha (by simp)
  | succ n ih =>
    intro c as_ c' hok
    cases hh : readHeader c with
    | error e => simp [readAtomics, hh] at hok
    | ok p =>
      obtain ⟨h, c1⟩ := p
      simp only [readAtomics, hh] at hok
      split at hok
      · cases hcc : childCursor h c1 with
        | error e => rw [hcc] at hok; exact absurd hok (by simp)
        | ok q =>
          obtain ⟨child, c2⟩ := q
          rw [hcc] at hok
          simp only at hok
          cases hra : readAtomic fl gl child with
          | error e => rw [hra] at hok; exact absurd hok (by simp)
          | ok a0 =>
            rw [hra] at hok
            simp only at hok
            cases hras : readAtomics fl gl n c2 with
            | error e => rw [hras] at hok; exact absurd hok (by simp)
            | ok r =>
              obtain ⟨as', c''⟩ := r
              rw [hras] at hok
              simp only [Except.ok.injEq, Prod.mk.injEq] at hok
              obtain ⟨h1, -⟩ := hok
              subst h1
              intro a ha
              rcases List.mem_cons.mp ha with h1 | h1
              · subst h1; exact readAtomic_sound fl gl child a hra
              · exact ih c2 as' c'' hras a h1
      · exact absurd hok (by simp)

theorem loadClumpBody_shape (fl : List Frame) (gl : List Geometry)
    (n : Nat) (c : Cursor) (cl : Clump)
    (hok : loadClumpBody fl gl n c = .ok cl) :
    cl.frames = fl ∧ cl.geometries = gl ∧
    ∃ c1, readAtomics fl gl n c = .ok (cl.atomics, c1) := by
  cases hra : readAtomics fl gl n c with
  | error e => simp [loadClumpBody, hra] at hok
  | ok p =>
    obtain ⟨atomics, c1⟩ := p
    simp only [loadClumpBody, hra] at hok
    split at hok
    · simp only [Except.ok.injEq] at hok
      subst hok
      exact ⟨rfl, rfl, c1, rfl⟩
    · cases hh : readHeader c1 with
      | error e => rw [hh] at hok; exact absurd hok (by simp)
      | ok q =>
        obtain ⟨h, c2⟩ := q
        rw [hh] at hok
        simp only at hok
        split at hok
        · cases hcc : childCursor h c2 with
          | error e => rw [hcc] at hok; exact absurd hok (by simp)
          | ok r =>
            rw [hcc] at hok
            simp only [Except.ok.injEq] at hok
            subst hok
            exact ⟨rfl, rfl, c1, rfl⟩
        · exact absurd hok (by simp)

theorem loadFromMemory_ok_shape (L : TextureLookup) (bytes : List Nat)
    (cl : Clump) (hok : loadFromMemory L bytes = .ok cl) :
    ∃ (fl : List Frame) (gl : List Geometry) (n : Nat) (c flc glc : Cursor),
      readFrameList flc = .ok fl ∧ readGeometryList L glc = .ok gl ∧
      loadClumpBody fl gl n c = .ok cl := by
  cases hh : readHeader ⟨bytes, 0⟩ with
  | error e => simp [loadFromMemory, hh] at hok
  | ok p =>
    obtain ⟨h, c1⟩ := p
    simp only [loadFromMemory, hh] at hok
    split at hok
    · cases hcc : childCursor h c1 with
      | error e => rw [hcc] at hok; exact absurd hok (by simp)
      | ok q =>
        obtain ⟨child, c2⟩ := q
        rw [hcc] at hok
        simp only at hok
        -- loadClumpStage
        cases hh2 : readHeader child with
        | error e => simp [loadClumpStage, hh2] at hok
        | ok p2 =>
          obtain ⟨h2, c3⟩ := p2
          simp only [loadClumpStage, hh2] at hok
          split at hok
          · cases hcc2 : childCursor h2 c3 with
            | error e => rw [hcc2] at hok; exact absurd hok (by simp)
            | ok q2 =>
              obtain ⟨sc, c4⟩ := q2
              rw [hcc2] at hok
              simp only at hok
              cases hu : readU32 sc with
              | error e => rw [hu] at hok; exact absurd hok (by simp)
              | ok r =>
                obtain ⟨numAtomics, sc1⟩ := r
                rw [hu] at hok
                simp only at hok
                -- loadFrameListStage
                cases hh3 : readHeader c4 with
                | error e => simp [loadFrameListStage, hh3] at hok
                | ok p3 =>
                  obtain ⟨h3, c5⟩ := p3
                  simp only [loadFrameListStage, hh3] at hok
                  split at hok
                  · cases hcc3 : childCursor h3 c5 with
                    | error e => rw [hcc3] at hok; exact absurd hok (by simp)
                    | ok q3 =>
                      obtain ⟨flc, c6⟩ := q3
                      rw [hcc3] at hok
                      simp only at hok
                      cases hfl : readFrameList flc with
                      | error e => rw [hfl] at hok; exact absurd hok (by simp)
                      | ok fl =>
                        rw [hfl] at hok
                        simp only at hok
                        -- loadGeometryListStage
                        cases hh4 : readHeader c6 with
                        | error e => simp [loadGeometryListStage, hh4] at hok
                        | ok p4 =>
                          obtain ⟨h4, c7⟩ := p4
                          simp only [loadGeometryListStage, hh4] at hok
                          split at hok
                          · cases hcc4 : childCursor h4 c7 with
                            | error e => rw [hcc4] at hok; exact absurd hok (by simp)
                            | ok q4 =>
                              obtain ⟨glc, c8⟩ := q4
                              rw [hcc4] at hok
                              simp only at hok
                              cases hgl : readGeometryList L glc with
                              | error e => rw [hgl] at hok; exact absurd hok (by simp)
                              | ok gl =>
                                rw [hgl] at hok
                                simp only at hok
                                exact ⟨fl, gl, numAtomics, c8, flc, glc,
                                       hfl, hgl, hok⟩
                          · exact absurd hok (by simp)
                  · exact absurd hok (by simp)
          · exact absurd hok (by simp)
    · exact absurd hok (by simp)

theorem readGeometry_sound (L : TextureLookup) (c : Cursor) (g : Geometry)
    (hok : readGeometry L c = .ok g) :
    trianglesOK g.triangles g.vertexCount g.materials.length = true := by
  cases hh : readHeader c with
  | error e => simp [readGeometry, hh] at hok
  | ok p =>
    obtain ⟨h, c1⟩ := p
    simp only [readGeometry, hh] at hok
    split at hok
    · cases hcc : childCursor h c1 with
      | error e => rw [hcc] at hok; exact absurd hok (by simp)
      | ok q =>
        obtain ⟨sc, c2⟩ := q
        rw [hcc] at hok
        simp only at hok
        cases hgs : readGeometryStruct h.version sc with
        | error e => rw [hgs] at hok; exact absurd hok (by simp)
        | ok gs =>
          rw [hgs] at hok
          simp only at hok
          cases hsub : geomSubChunks L c2.remaining c2 [] none with
          | error e => rw [hsub] at hok; exact absurd hok (by simp)
          | ok r =>
            obtain ⟨mats, bm⟩ := r
            rw [hsub] at hok
            simp only at hok
            split at hok
            · rename_i htri
              simp only [Except.ok.injEq] at hok
              subst hok
              dsimp only
              exact htri
            · exact absurd hok (by simp)
    · exact absurd hok (by simp)

theorem trianglesOK_spec (tris : List Triangle) (vc mc : Nat)
    (h : trianglesOK tris vc mc = true) :
    ∀ t ∈ tris, t.v0 < vc ∧ t.v1 < vc ∧ t.v2 < vc ∧
      t.materialIndex < mc := by
  intro t ht
  have := List.all_eq_true.mp h t ht
  simp only [Bool.and_eq_true, decide_eq_true_eq] at this
  tauto

theorem readGeometries_sound (L : TextureLookup) :
    ∀ (n : Nat) (c : Cursor) (gs : List Geometry) (c' : Cursor),
      readGeometries L n c = .ok (gs, c') →
      ∀ g ∈ gs,
        trianglesOK g.triangles g.vertexCount g.materials.length = true := by
  intro n
  induction n with
  | zero =>
    intro c gs c' hok
    simp only [readGeometries, Except.ok.injEq, Prod.mk.injEq] at hok
    obtain ⟨h1, -⟩ := hok
    subst h1
    intro g hg
    exact absurd hg (by simp)
  | succ n ih =>
    intro c gs c' hok
    cases hh : readHeader c with
    | error e => simp [readGeometries, hh] at hok
    | ok p =>
      obtain ⟨h, c1⟩ := p
      simp only [readGeometries, hh] at hok
      split at hok
      · cases hcc : childCursor h c1 with
        | error e => rw [hcc] at hok; exact absurd hok (by simp)
        | ok q =>
          obtain ⟨child, c2⟩ := q
          rw [hcc] at hok
          simp only at hok
          cases hrg : readGeometry L child with
          | error e => rw [hrg] at hok; exact absurd hok (by simp)
          | ok g0 =>
            rw [hrg] at hok
            simp only at hok
            cases hrgs : readGeometries L n c2 with
            | error e => rw [hrgs] at hok; exact absurd hok (by simp)
            | ok r =>
              obtain ⟨gs', c''⟩ := r
              rw [hrgs] at hok
              simp only [Except.ok.injEq, Prod.mk.injEq] at hok
              obtain ⟨h1, -⟩ := hok
              subst h1
              intro g hg
              rcases List.mem_cons.mp hg with h1 | h1
              · subst h1; exact readGeometry_sound L child g hrg
              · exact ih c2 gs' c'' hrgs g h1
      · exact absurd hok (by simp)

theorem readGeometryList_sound (L : TextureLookup) (c : Cursor)
    (gl : List Geometry) (hok : readGeometryList L c = .ok gl) :
    ∀ g ∈ gl,
      trianglesOK g.triangles g.vertexCount g.materials.length = true := by
  cases hh : readHeader c with
  | error e => simp [readGeometryList, hh] at hok
  | ok p =>
    obtain ⟨h, c1⟩ := p
    simp only [readGeometryList, hh] at hok
    split at hok
    · cases hcc : childCursor h c1 with
      | error e => rw [hcc] at hok; exact absurd hok (by simp)
      | ok q =>
        obtain ⟨sc, c2⟩ := q
        rw [hcc] at hok
        simp only at hok
        cases hu : readU32 sc with
        | error e => rw [hu] at hok; exact absurd hok (by simp)
        | ok r =>
          obtain ⟨count, sc1⟩ := r
          rw [hu] at hok
          simp only at hok
          cases hgs : readGeometries L count c2 with
          | error e => rw [hgs] at hok; exact absurd hok (by simp)
          | ok s =>
            obtain ⟨gs, c''⟩ := s
            rw [hgs] at hok
            simp only [Except.ok.injEq] at hok
            subst hok
            exact readGeometries_sound L count c2 gs c'' hgs
    · exact absurd hok (by simp)

/-- C3: every atomic of a clump produced by `loadFromMemory` has its frame
index below the clump's frame count and its geometry index below the
clump's geometry count; `readAtomic`, given the already-built frame and
geometry sequences, fails with `ReferenceOutOfRange` whenever the struct's
frame or geometry index is out of bounds of those sequences.  The closed
conjunct exercises the out-of-range geometry index on a concrete buffer. -/
theorem atomic_indices_in_range :
    (∀ (L : TextureLookup) (bytes : List Nat) (cl : Clump),
      loadFromMemory L bytes = .ok cl →
      ∀ a ∈ cl.atomics, a.frameIndex < cl.frames.length ∧
                        a.geometryIndex < cl.geometries.length) ∧
    (∀ (fl : List Frame) (gl : List Geometry) (c : Cursor)
       (fi gi f u : Nat),
      readAtomicStruct c = .ok (fi, gi, f, u) →
      (fl.length ≤ fi ∨ gl.length ≤ gi) →
      readAtomic fl gl c = .error .ReferenceOutOfRange) ∧
    loadFromMemory noneLookup badAtomicDFF = .error .ReferenceOutOfRange := by
  refine ⟨fun L bytes cl hok a ha => ?_,
          fun fl gl c fi gi f u hs hcond => ?_, by decide⟩
  · obtain ⟨fl, gl, n, c, flc, glc, hfl, hgl, hbody⟩ :=
      loadFromMemory_ok_shape L bytes cl hok
    obtain ⟨hf, hg, c1, hras⟩ := loadClumpBody_shape fl gl n c cl hbody
    have hb := readAtomics_sound fl gl n c cl.atomics c1 hras a ha
    rw [hf, hg]
    exact hb
  · simp only [readAtomic, hs]
    rw [if_pos hcond]

/-- C4: `readGeometry` accepts a vertex count of zero and a triangle count
of zero as a valid degenerate geometry (first conjunct, on a concrete
buffer); every triangle of every geometry of a produced clump has its
three vertex indices below the geometry's vertex count and its material
index below the geometry's material count; and a geometry whose triangles
reference an out-of-range vertex or material index fails with
`ReferenceOutOfRange` (general conjunct and a concrete buffer). -/
theorem geometry_triangle_indices_in_range :
    readGeometry noneLookup ⟨degenerateGeomPayload, 0⟩ =
      .ok ⟨0, 0, 0, 1, [0, 0, 0, 0], [], [], [], [], [], [], none⟩ ∧
    (∀ (L : TextureLookup) (bytes : List Nat) (cl : Clump),
      loadFromMemory L bytes = .ok cl →
      ∀ g ∈ cl.geometries, ∀ t ∈ g.triangles,
        t.v0 < g.vertexCount ∧ t.v1 < g.vertexCount ∧
        t.v2 < g.vertexCount ∧ t.materialIndex < g.materials.length) ∧
    (∀ (L : TextureLookup) (c : Cursor) (h : ChunkHeader)
       (c1 sc c2 : Cursor) (gs : GeomStruct) (mats : List Material)
       (bm : Option BinMesh),
      readHeader c = .ok (h, c1) → h.tag = CHUNK_STRUCT →
      childCursor h c1 = .ok (sc, c2) →
      readGeometryStruct h.version sc = .ok gs →
      geomSubChunks L c2.remaining c2 [] none = .ok (mats, bm) →
      trianglesOK gs.triangles gs.vertexCount mats.length = false →
      readGeometry L c = .error .ReferenceOutOfRange) ∧
    loadFromMemory noneLookup badTriangleDFF = .error .ReferenceOutOfRange := by
  refine ⟨by decide, fun L bytes cl hok g hg t ht => ?_,
          fun L c h c1 sc c2 gs mats bm hh htag hcc hgs hsub htri => ?_,
          by decide⟩
  · obtain ⟨fl, gl, n, c, flc, glc, hfl, hgl, hbody⟩ :=
      loadFromMemory_ok_shape L bytes cl hok
    obtain ⟨-, hgeq, -⟩ := loadClumpBody_shape fl gl n c cl hbody
    rw [hgeq] at hg
    have hOK := readGeometryList_sound L glc gl hgl g hg
    exact trianglesOK_spec g.triangles g.vertexCount g.materials.length hOK t ht
  · simp only [readGeometry, hh, htag, if_true, hcc, hgs, hsub]
    simp [htri]

/-- C2: the loader driver enforces the fixed top-level chunk order.  At
every stage of the state machine (outer clump, struct, frame list,
geometry list, each atomic, trailing extension) a chunk kind other than
the expected one makes the load fail with `UnexpectedChunk` carrying that
kind; a failing load returns the first failure and never also a clump (no
partial clump).  The closed conjuncts exercise an unrecognized top-level
kind and a swapped frame-list/geometry-list order on concrete buffers. -/
theorem loadFromMemory_chunk_order :
    (∀ (L : TextureLookup) (bytes : List Nat) (h : ChunkHeader) (c : Cursor),
      readHeader ⟨bytes, 0⟩ = .ok (h, c) → h.tag ≠ CHUNK_CLUMP →
      loadFromMemory L bytes = .error (.UnexpectedChunk h.tag)) ∧
    (∀ (L : TextureLookup) (c : Cursor) (h : ChunkHeader) (c1 : Cursor),
      readHeader c = .ok (h, c1) → h.tag ≠ CHUNK_STRUCT →
      loadClumpStage L c = .error (.UnexpectedChunk h.tag)) ∧
    (∀ (L : TextureLookup) (n : Nat) (c : Cursor) (h : ChunkHeader)
       (c1 : Cursor),
      readHeader c = .ok (h, c1) → h.tag ≠ CHUNK_FRAMELIST →
      loadFrameListStage L n c = .error (.UnexpectedChunk h.tag)) ∧
    (∀ (L : TextureLookup) (n : Nat) (fl : List Frame) (c : Cursor)
       (h : ChunkHeader) (c1 : Cursor),
      readHeader c = .ok (h, c1) → h.tag ≠ CHUNK_GEOMETRYLIST →
      loadGeometryListStage L n fl c = .error (.UnexpectedChunk h.tag)) ∧
    (∀ (fl : List Frame) (gl : List Geometry) (n : Nat) (c : Cursor)
       (h : ChunkHeader) (c1 : Cursor),
      readHeader c = .ok (h, c1) → h.tag ≠ CHUNK_ATOMIC →
      readAtomics fl gl (n + 1) c = .error (.UnexpectedChunk h.tag)) ∧
    (∀ (fl : List Frame) (gl : List Geometry) (n : Nat)
       (c : Cursor) (atomics : List Atomic) (c1 : Cursor)
       (h : ChunkHeader) (c2 : Cursor),
      readAtomics fl gl n c = .ok (atomics, c1) → c1.remaining ≠ 0 →
      readHeader c1 = .ok (h, c2) → h.tag ≠ CHUNK_EXTENSION →
      loadClumpBody fl gl n c = .error (.UnexpectedChunk h.tag)) ∧
    (∀ (L : TextureLookup) (bytes : List Nat) (e : DFFError),
      loadFromMemory L bytes = .error e →
      ¬ ∃ cl, loadFromMemory L bytes = .ok cl) ∧
    loadFromMemory noneLookup badTopTagDFF =
      .error (.UnexpectedChunk CHUNK_STRUCT) ∧
    loadFromMemory noneLookup swappedOrderDFF =
      .error (.UnexpectedChunk CHUNK_GEOMETRYLIST) := by
  refine ⟨fun L bytes h c hh htag => ?_, fun L c h c1 hh htag => ?_,
          fun L n c h c1 hh htag => ?_, fun L n fl c h c1 hh htag => ?_,
          fun fl gl n c h c1 hh htag => ?_,
          fun fl gl n c atomics c1 h c2 hras hrem hh htag => ?_,
          fun L bytes e herr hex => ?_, by decide, by decide⟩
  · simp only [loadFromMemory, hh]
    rw [if_neg htag]
  · simp only [loadClumpStage, hh]
    rw [if_neg htag]
  · simp only [loadFrameListStage, hh]
    rw [if_neg htag]
  · simp only [loadGeometryListStage, hh]
    rw [if_neg htag]
  · simp only [readAtomics, hh]
    rw [if_neg htag]
  · simp only [loadClumpBody, hras]
    rw [if_neg hrem]
    simp only [hh]
    rw [if_neg htag]
  · obtain ⟨cl, hcl⟩ := hex
    rw [herr] at hcl
    exact absurd hcl (by simp)

theorem readTexture_strip (L : TextureLookup) (c : Cursor) :
    readTexture noneLookup c = (readTexture L c).map stripTex := by
  cases hr : readTextureRaw c with
  | error e => simp [readTexture, hr, Except.map]
  | ok p =>
    obtain ⟨ff, nm, mk⟩ := p
    simp [readTexture, hr, Except.map, stripTex, noneLookup]

theorem materialSubChunks_strip (L : TextureLookup) :
    ∀ (fuel : Nat) (c : Cursor) (texs : List TextureRef),
      materialSubChunks noneLookup fuel c (texs.map stripTex) =
        (materialSubChunks L fuel c texs).map (List.map stripTex) := by
  intro fuel
  induction fuel with
  | zero => intro c texs; simp [materialSubChunks, Except.map]
  | succ fuel ih =>
    intro c texs
    by_cases hrem : c.remaining = 0
    · simp [materialSubChunks, hrem, Except.map]
    · simp only [materialSubChunks, if_neg hrem]
      cases hh : readHeader c with
      | error e => simp [Except.map]
      | ok p =>
        obtain ⟨h, c1⟩ := p
        simp only
        cases hcc : childCursor h c1 with
        | error e => simp [Except.map]
        | ok q =>
          obtain ⟨child, c2⟩ := q
          simp only
          by_cases htag : h.tag = CHUNK_TEXTURE
          · simp only [htag, if_true]
            rw [readTexture_strip L child]
            cases hrt : readTexture L child with
            | error e => simp [Except.map]
            | ok t =>
              simp only [Except.map]
              rw [show List.map stripTex texs ++ [stripTex t] =
                    (texs ++ [t]).map stripTex from by simp]
              exact ih c2 (texs ++ [t])
          · simp only [if_neg htag]
            exact ih c2 texs

theorem readMaterial_strip (L : TextureLookup) (c : Cursor) :
    readMaterial noneLookup c = (readMaterial L c).map stripMat := by
  cases hh : readHeader c with
  | error e => simp [readMaterial, hh, Except.map]
  | ok p =>
    obtain ⟨h, c1⟩ := p
    simp only [readMaterial, hh]
    by_cases htag : h.tag = CHUNK_STRUCT
    · simp only [htag, if_true]
      cases hcc : childCursor h c1 with
      | error e => simp [Except.map]
      | ok q =>
        obtain ⟨sc, c2⟩ := q
        simp only
        cases h1 : readU32 sc with
        | error e => simp [Except.map]
        | ok r1 =>
          obtain ⟨fl, sc1⟩ := r1
          simp only
          cases h2 : readU32 sc1 with
          | error e => simp [Except.map]
          | ok r2 =>
            obtain ⟨col, sc2⟩ := r2
            simp only
            cases h3 : readU32 sc2 with
            | error e => simp [Except.map]
            | ok r3 =>
              obtain ⟨unk, sc3⟩ := r3
              simp only
              cases h4 : readU32 sc3 with
              | error e => simp [Except.map]
              | ok r4 =>
                obtain ⟨tc, sc4⟩ := r4
                simp only
                cases h5 : readWords 3 sc4 with
                | error e => simp [Except.map]
                | ok r5 =>
                  obtain ⟨coeffs, sc5⟩ := r5
                  simp only
                  have hstrip : materialSubChunks noneLookup c2.remaining c2 [] =
                      (materialSubChunks L c2.remaining c2 []).map (List.map stripTex) := by
                    simpa using materialSubChunks_strip L c2.remaining c2 []
                  rw [hstrip]
                  cases h6 : materialSubChunks L c2.remaining c2 [] with
                  | error e => simp [Except.map]
                  | ok texs => simp [Except.map, stripMat]
    · simp [htag, Except.map]

theorem readMaterials_strip (L : TextureLookup) :
    ∀ (n : Nat) (c : Cursor),
      readMaterials noneLookup n c =
        (readMaterials L n c).map (fun p => (p.1.map stripMat, p.2)) := by
  intro n
  induction n with
  | zero => intro c; simp [readMaterials, Except.map]
  | succ n ih =>
    intro c
    cases hh : readHeader c with
    | error e => simp [readMaterials, hh, Except.map]
    | ok p =>
      obtain ⟨h, c1⟩ := p
      simp only [readMaterials, hh]
      by_cases htag : h.tag = CHUNK_MATERIAL
      · simp only [htag, if_true]
        cases hcc : childCursor h c1 with
        | error e => simp [Except.map]
        | ok q =>
          obtain ⟨child, c2⟩ := q
          simp only
          rw [readMaterial_strip L child]
          cases hm : readMaterial L child with
          | error e => simp [Except.map]
          | ok m =>
            simp only [Except.map]
            rw [ih c2]
            cases hms : readMaterials L n c2 with
            | error e => simp [Except.map]
            | ok r =>
              obtain ⟨ms, c''⟩ := r
              simp [Except.map]
      · simp [htag, Except.map]

theorem readMaterialList_strip (L : TextureLookup) (c : Cursor) :
    readMaterialList noneLookup c =
      (readMaterialList L c).map (List.map stripMat) := by
  cases hh : readHeader c with
  | error e => simp [readMaterialList, hh, Except.map]
  | ok p =>
    obtain ⟨h, c1⟩ := p
    simp only [readMaterialList, hh]
    by_cases htag : h.tag = CHUNK_STRUCT
    · simp only [htag, if_true]
      cases hcc : childCursor h c1 with
      | error e => simp [Except.map]
      | ok q =>
        obtain ⟨sc, c2⟩ := q
        simp only
        cases hu : readU32 sc with
        | error e => simp [Except.map]
        | ok r =>
          obtain ⟨count, sc1⟩ := r
          simp only
          cases hw : readWords count sc1 with
          | error e => simp [Except.map]
          | ok r2 =>
            obtain ⟨ws, sc2⟩ := r2
            simp only
            rw [readMaterials_strip L count c2]
            cases hms : readMaterials L count c2 with
            | error e => simp [Except.map]
            | ok r3 =>
              obtain ⟨ms, c''⟩ := r3
              simp [Except.map]
    · simp [htag, Except.map]

theorem geomSubChunks_strip (L : TextureLookup) :
    ∀ (fuel : Nat) (c : Cursor) (mats : List Material) (bm : Option BinMesh),
      geomSubChunks noneLookup fuel c (mats.map stripMat) bm =
        (geomSubChunks L fuel c mats bm).map
          (fun p => (p.1.map stripMat, p.2)) := by
  intro fuel
  induction fuel with
  | zero => intro c mats bm; simp [geomSubChunks, Except.map]
  | succ fuel ih =>
    intro c mats bm
    by_cases hrem : c.remaining = 0
    · simp [geomSubChunks, hrem, Except.map]
    · simp only [geomSubChunks, if_neg hrem]
      cases hh : readHeader c with
      | error e => simp [Except.map]
      | ok p =>
        obtain ⟨h, c1⟩ := p
        simp only
        cases hcc : childCursor h c1 with
        | error e => simp [Except.map]
        | ok q =>
          obtain ⟨child, c2⟩ := q
          simp only
          by_cases htag : h.tag = CHUNK_MATERIALLIST
          · simp only [htag, if_true]
            rw [readMaterialList_strip L child]
            cases hml : readMaterialList L child with
            | error e => simp [Except.map]
            | ok ms =>
              simp only [Except.map]
              exact ih c2 ms bm
          · simp only [if_neg htag]
            by_cases htag2 : h.tag = CHUNK_EXTENSION
            · simp only [htag2, if_true]
              cases hge : readGeometryExtension child.remaining child bm with
              | error e => simp [Except.map]
              | ok b =>
                simp only
                exact ih c2 mats b
            · simp only [if_neg htag2]
              exact ih c2 mats bm

theorem readGeometry_strip (L : TextureLookup) (c : Cursor) :
    readGeometry noneLookup c = (readGeometry L c).map stripGeom := by
  cases hh : readHeader c with
  | error e => simp [readGeometry, hh, Except.map]
  | ok p =>
    obtain ⟨h, c1⟩ := p
    simp only [readGeometry, hh]
    by_cases htag : h.tag = CHUNK_STRUCT
    · simp only [htag, if_true]
      cases hcc : childCursor h c1 with
      | error e => simp [Except.map]
      | ok q =>
        obtain ⟨sc, c2⟩ := q
        simp only
        cases hgs : readGeometryStruct h.version sc with
        | error e => simp [Except.map]
        | ok gs =>
          simp only
          have hstrip : geomSubChunks noneLookup c2.remaining c2 [] none =
              (geomSubChunks L c2.remaining c2 [] none).map
                (fun p => (p.1.map stripMat, p.2)) := by
            simpa using geomSubChunks_strip L c2.remaining c2 [] none
          rw [hstrip]
          cases hsub : geomSubChunks L c2.remaining c2 [] none with
          | error e => simp [Except.map]
          | ok r =>
            obtain ⟨mats, bm⟩ := r
            simp only [Except.map]
            by_cases htri : trianglesOK gs.triangles gs.vertexCount
                mats.length = true
            · simp [List.length_map, htri, stripGeom]
            · rw [Bool.not_eq_true] at htri
              simp [List.length_map, htri, stripGeom]
    · simp [htag, Except.map]

theorem readGeometries_strip (L : TextureLookup) :
    ∀ (n : Nat) (c : Cursor),
      readGeometries noneLookup n c =
        (readGeometries L n c).map (fun p => (p.1.map stripGeom, p.2)) := by
  intro n
  induction n with
  | zero => intro c; simp [readGeometries, Except.map]
  | succ n ih =>
    intro c
    cases hh : readHeader c with
    | error e => simp [readGeometries, hh, Except.map]
    | ok p =>
      obtain ⟨h, c1⟩ := p
      simp only [readGeometries, hh]
      by_cases htag : h.tag = CHUNK_GEOMETRY
      · simp only [htag, if_true]
        cases hcc : childCursor h c1 with
        | error e => simp [Except.map]
        | ok q =>
          obtain ⟨child, c2⟩ := q
          simp only
          rw [readGeometry_strip L child]
          cases hg : readGeometry L child with
          | error e => simp [Except.map]
          | ok g0 =>
            simp only [Except.map]
            rw [ih c2]
            cases hgs : readGeometries L n c2 with
            | error e => simp [Except.map]
            | ok r =>
              obtain ⟨gs, c''⟩ := r
              simp [Except.map]
      · simp [htag, Except.map]

theorem readGeometryList_strip (L : TextureLookup) (c : Cursor) :
    readGeometryList noneLookup c =
      (readGeometryList L c).map (List.map stripGeom) := by
  cases hh : readHeader c with
  | error e => simp [readGeometryList, hh, Except.map]
  | ok p =>
    obtain ⟨h, c1⟩ := p
    simp only [readGeometryList, hh]
    by_cases htag : h.tag = CHUNK_STRUCT
    · simp only [htag, if_true]
      cases hcc : childCursor h c1 with
      | error e => simp [Except.map]
      | ok q =>
        obtain ⟨sc, c2⟩ := q
        simp only
        cases hu : readU32 sc with
        | error e => simp [Except.map]
        | ok r =>
          obtain ⟨count, sc1⟩ := r
          simp only
          rw [readGeometries_strip L count c2]
          cases hgs : readGeometries L count c2 with
          | error e => simp [Except.map]
          | ok s =>
            obtain ⟨gs, c''⟩ := s
            simp [Except.map]
    · simp [htag, Except.map]

theorem readAtomic_glen (fl : List Frame) (gl gl' : List Geometry)
    (hlen : gl'.length = gl.length) (c : Cursor) :
    readAtomic fl gl' c = readAtomic fl gl c := by
  cases hs : readAtomicStruct c with
  | error e => simp [readAtomic, hs]
  | ok p =>
    obtain ⟨fi, gi, f, u⟩ := p
    simp [readAtomic, hs, hlen]

theorem readAtomics_glen (fl : List Frame) (gl gl' : List Geometry)
    (hlen : gl'.length = gl.length) :
    ∀ (n : Nat) (c : Cursor),
      readAtomics fl gl' n c = readAtomics fl gl n c := by
  intro n
  induction n with
  | zero => intro c; simp [readAtomics]
  | succ n ih =>
    intro c
    cases hh : readHeader c with
    | error e => simp [readAtomics, hh]
    | ok p =>
      obtain ⟨h, c1⟩ := p
      simp only [readAtomics, hh]
      by_cases htag : h.tag = CHUNK_ATOMIC
      · simp only [htag, if_true]
        cases hcc : childCursor h c1 with
        | error e => simp
        | ok q =>
          obtain ⟨child, c2⟩ := q
          simp only
          rw [readAtomic_glen fl gl gl' hlen child]
          cases hra : readAtomic fl gl child with
          | error e => simp
          | ok a =>
            simp only
            rw [ih c2]
      · simp [htag]

theorem loadClumpBody_strip (fl : List Frame) (gl : List Geometry)
    (n : Nat) (c : Cursor) :
    loadClumpBody fl (gl.map stripGeom) n c =
      (loadClumpBody fl gl n c).map stripClump := by
  rw [loadClumpBody, loadClumpBody,
      readAtomics_glen fl gl (gl.map stripGeom) (List.length_map gl stripGeom) n c]
  cases hra : readAtomics fl gl n c with
  | error e => simp [Except.map]
  | ok p =>
    obtain ⟨atomics, c1⟩ := p
    simp only
    by_cases hrem : c1.remaining = 0
    · simp [hrem, Except.map, stripClump]
    · simp only [if_neg hrem]
      cases hh : readHeader c1 with
      | error e => simp [Except.map]
      | ok q =>
        obtain ⟨h, c2⟩ := q
        simp only
        by_cases htag : h.tag = CHUNK_EXTENSION
        · simp only [htag, if_true]
          cases hcc : childCursor h c2 with
          | error e => simp [Except.map]
          | ok r => simp [Except.map, stripClump]
        · simp [htag, Except.map]

theorem loadGeometryListStage_strip (L : TextureLookup) (n : Nat)
    (fl : List Frame) (c : Cursor) :
    loadGeometryListStage noneLookup n fl c =
      (loadGeometryListStage L n fl c).map stripClump := by
  cases hh : readHeader c with
  | error e => simp [loadGeometryListStage, hh, Except.map]
  | ok p =>
    obtain ⟨h, c1⟩ := p
    simp only [loadGeometryListStage, hh]
    by_cases htag : h.tag = CHUNK_GEOMETRYLIST
    · simp only [htag, if_true]
      cases hcc : childCursor h c1 with
      | error e => simp [Except.map]
      | ok q =>
        obtain ⟨child, c2⟩ := q
        simp only
        rw [readGeometryList_strip L child]
        cases hgl : readGeometryList L child with
        | error e => simp [Except.map]
        | ok gl =>
          simp only [Except.map]
          exact loadClumpBody_strip fl gl n c2
    · simp [htag, Except.map]

theorem loadFrameListStage_strip (L : TextureLookup) (n : Nat) (c : Cursor) :
    loadFrameListStage noneLookup n c =
      (loadFrameListStage L n c).map stripClump := by
  cases hh : readHeader c with
  | error e => simp [loadFrameListStage, hh, Except.map]
  | ok p =>
    obtain ⟨h, c1⟩ := p
    simp only [loadFrameListStage, hh]
    by_cases htag : h.tag = CHUNK_FRAMELIST
    · simp only [htag, if_true]
      cases hcc : childCursor h c1 with
      | error e => simp [Except.map]
      | ok q =>
        obtain ⟨child, c2⟩ := q
        simp only
        cases hfl : readFrameList child with
        | error e => simp [Except.map]
        | ok fl =>
          simp only
          exact loadGeometryListStage_strip L n fl c2
    · simp [htag, Except.map]

theorem loadClumpStage_strip (L : TextureLookup) (c : Cursor) :
    loadClumpStage noneLookup c = (loadClumpStage L c).map stripClump := by
  cases hh : readHeader c with
  | error e => simp [loadClumpStage, hh, Except.map]
  | ok p =>
    obtain ⟨h, c1⟩ := p
    simp only [loadClumpStage, hh]
    by_cases htag : h.tag = CHUNK_STRUCT
    · simp only [htag, if_true]
      cases hcc : childCursor h c1 with
      | error e => simp [Except.map]
      | ok q =>
        obtain ⟨sc, c2⟩ := q
        simp only
        cases hu : readU32 sc with
        | error e => simp [Except.map]
        | ok r =>
          obtain ⟨numAtomics, sc1⟩ := r
          simp only
          exact loadFrameListStage_strip L numAtomics c2
    · simp [htag, Except.map]

theorem loadFromMemory_strip (L : TextureLookup) (bytes : List Nat) :
    loadFromMemory noneLookup bytes =
      (loadFromMemory L bytes).map stripClump := by
  cases hh : readHeader ⟨bytes, 0⟩ with
  | error e => simp [loadFromMemory, hh, Except.map]
  | ok p =>
    obtain ⟨h, c1⟩ := p
    simp only [loadFromMemory, hh]
    by_cases htag : h.tag = CHUNK_CLUMP
    · simp only [htag, if_true]
      cases hcc : childCursor h c1 with
      | error e => simp [Except.map]
      | ok q =>
        obtain ⟨child, c2⟩ := q
        simp only
        exact loadClumpStage_strip L child
    · simp [htag, Except.map]

/-- C8: a texture-lookup callback returning "not found" is never a parse
failure.  The load under the always-none callback equals the load under
any callback with every resolved handle stripped (so it succeeds on
exactly the same inputs); in particular, whenever any callback yields a
clump, the always-none callback yields the same clump with every texture
carrying the unresolved marker, and every clump the always-none callback
produces has only unresolved texture markers.  The closed conjuncts load
the concrete buffer whose material declares a texture. -/
theorem textureLookup_none_not_failure :
    (∀ (L : TextureLookup) (bytes : List Nat),
      loadFromMemory noneLookup bytes =
        (loadFromMemory L bytes).map stripClump) ∧
    (∀ (L : TextureLookup) (bytes : List Nat) (cl : Clump),
      loadFromMemory L bytes = .ok cl →
      loadFromMemory noneLookup bytes = .ok (stripClump cl)) ∧
    (∀ (bytes : List Nat) (cl : Clump),
      loadFromMemory noneLookup bytes = .ok cl →
      ∀ g ∈ cl.geometries, ∀ m ∈ g.materials, ∀ t ∈ m.textures,
        t.handle = none) ∧
    loadFromMemory noneLookup texturedDFF = .ok texturedClumpUnresolved ∧
    clumpTexturesUnresolved texturedClumpUnresolved = true := by
  refine ⟨loadFromMemory_strip, fun L bytes cl hok => ?_,
          fun bytes cl hok => ?_, by decide, by decide⟩
  · rw [loadFromMemory_strip L bytes, hok]; rfl
  · have h2 := loadFromMemory_strip noneLookup bytes
    rw [hok] at h2
    simp only [Except.map, Except.ok.injEq] at h2
    intro g hg m hm t ht
    rw [h2] at hg
    simp only [stripClump] at hg
    obtain ⟨g0, hg0, rfl⟩ := List.mem_map.mp hg
    simp only [stripGeom] at hm
    obtain ⟨m0, hm0, rfl⟩ := List.mem_map.mp hm
    simp only [stripMat] at ht
    obtain ⟨t0, ht0, rfl⟩ := List.mem_map.mp ht
    rfl
